import Mathlib

/-
  Verification of the sp500_leverage_vs_non_leverage trading bot.

  Shallow embedding of the decision logic of src/src/sp500_bot/live_trading.py,
  src/src/sp500_bot/utils.py, src/src/sp500_bot/sb.py, src/src/sp500_bot/t212.py,
  src/live_trading.py and src/tgbot.py.  Prices, quantities and times are
  rationals; wall-clock datetimes become seconds, timedeltas become second
  counts.  Broker input/output is made explicit: each step function receives an
  environment record holding the values the Python code would fetch from the
  broker during that step, and code that can raise is modelled in the Except
  monad.
-/

namespace SP500

/-- A portfolio position as used by the trading logic: quantity held and the
current price (fields quantity and currentPrice of the pydantic Position model;
models.py is not in the sources, the two fields are those live_trading.py
reads). -/
structure Position where
  quantity : ℚ
  currentPrice : ℚ
deriving DecidableEq

/-- SignalData of live_trading.py lines 81-85: reference time of the last base
price change, base and leveraged prices at that change, and the entry price of
the current position. -/
structure SignalData where
  timeLastBaseChange : ℚ
  baseValueAtLastChange : ℚ
  levValueAtLastChange : ℚ
  positionEntryPrice : ℚ
deriving DecidableEq

/-- LEV_DIFF_INVEST = 0.004 (live_trading.py line 70). -/
def LEV_DIFF_INVEST : ℚ := 4 / 1000

/-- TIME_DIFF_INVEST = timedelta(minutes=2), in seconds (line 71). -/
def TIME_DIFF_INVEST : ℚ := 120

/-- STOP_LOSS_THRESHOLD = 0.005 (line 72). -/
def STOP_LOSS_THRESHOLD : ℚ := 5 / 1000

/-- The two instruments the bot trades (BASE_TICKER and LEV_TICKER). -/
inductive Ticker where
  | base
  | lev
deriving DecidableEq

/-- Direction of a market order (MarketOrderType in t212.py). -/
inductive OrderSide where
  | buy
  | sell
deriving DecidableEq

/-- Round-half-to-even on rationals, the semantics of builtin round in Python,
used by place_market_order via round(quantity, 2). -/
def roundHalfEven (x : ℚ) : ℤ :=
  if x - ⌊x⌋ < 1 / 2 then ⌊x⌋
  else if 1 / 2 < x - ⌊x⌋ then ⌊x⌋ + 1
  else if ⌊x⌋ % 2 = 0 then ⌊x⌋ else ⌊x⌋ + 1

/-- round(x, 2) of Python on a rational. -/
def round2 (x : ℚ) : ℚ :=
  (roundHalfEven (x * 100) : ℚ) / 100

/-- The quantity field of the JSON payload place_market_order posts
(t212.py lines 277-300): the order quantity rounded to two decimals, negated
for sells. -/
structure MarketOrderPayload where
  ticker : Ticker
  quantity : ℚ
deriving DecidableEq

/-- Payload built by place_market_order from a MarketOrder. -/
def marketOrderPayload (t : Ticker) (q : ℚ) (side : OrderSide) : MarketOrderPayload :=
  ⟨t, if side = OrderSide.buy then round2 q else round2 (-q)⟩

/-- The tagged state of the trader (classes Initializing, HoldingLeveraged and
HoldingNonLeveraged of live_trading.py), each owning one SignalData. -/
inductive TraderState where
  | initializing (sd : SignalData)
  | holdingLeveraged (sd : SignalData)
  | holdingNonLeveraged (sd : SignalData)
deriving DecidableEq

/-- Broker responses observed during one two-leg swap: the positions fetched
before the sell, whether the sell placement raised, the positions fetched for
the sell verification, the cash available after the sell, the positions fetched
before the buy, whether the buy placement raised, and the positions fetched for
the buy verification. -/
structure SwapEnv where
  preBase : Position
  preLev : Position
  sellPlaceOk : Bool
  postSellBase : Position
  postSellLev : Position
  cashAvailable : ℚ
  preBuyBase : Position
  preBuyLev : Position
  buyPlaceOk : Bool
  postBuyBase : Position
  postBuyLev : Position
deriving DecidableEq

/-- The sell leg of HoldingLeveraged._swap_to_non_leveraged: a market sell of
quantity - 0.01 leveraged shares is placed when more than 0.01 are held. -/
def sellOrdersToNL (env : SwapEnv) : List MarketOrderPayload :=
  if env.preLev.quantity > 1 / 100 then
    [marketOrderPayload Ticker.lev (env.preLev.quantity - 1 / 100) OrderSide.sell]
  else []

/-- The buy leg of HoldingLeveraged._swap_to_non_leveraged: quantity is
cash / base price, and 0.9 of it is ordered. -/
def buyOrderToNL (env : SwapEnv) : MarketOrderPayload :=
  marketOrderPayload Ticker.base
    (env.cashAvailable / env.preBuyBase.currentPrice * (9 / 10)) OrderSide.buy

/-- HoldingLeveraged._swap_to_non_leveraged (live_trading.py lines 301-420):
sell the leveraged holding, verify the sell by a value drop of more than 5,
check the freed cash, buy non-leveraged with 90 percent of it, verify the buy
by a value rise of more than 5; every failure returns HoldingLeveraged with the
pre-swap SignalData. -/
def swapToNonLeveraged (sd : SignalData) (now : ℚ) (env : SwapEnv) :
    TraderState × List MarketOrderPayload :=
  if env.preLev.quantity > 1 / 100 ∧ env.sellPlaceOk = false then
    (TraderState.holdingLeveraged sd, [])
  else if env.postSellLev.quantity * env.postSellLev.currentPrice ≥
      env.preLev.quantity * env.preLev.currentPrice - 5 then
    (TraderState.holdingLeveraged sd, sellOrdersToNL env)
  else if env.cashAvailable < 10 then
    (TraderState.holdingLeveraged sd, sellOrdersToNL env)
  else if env.buyPlaceOk = false then
    (TraderState.holdingLeveraged sd, sellOrdersToNL env)
  else if env.postBuyBase.quantity * env.postBuyBase.currentPrice ≤
      env.preBuyBase.quantity * env.preBuyBase.currentPrice + 5 then
    (TraderState.holdingLeveraged sd, sellOrdersToNL env ++ [buyOrderToNL env])
  else
    (TraderState.holdingNonLeveraged
      ⟨now, env.postBuyBase.currentPrice, env.postBuyLev.currentPrice,
        env.postBuyBase.currentPrice⟩,
      sellOrdersToNL env ++ [buyOrderToNL env])

/-- The sell leg of HoldingNonLeveraged._swap_to_leveraged: a market sell of
quantity - 0.1 base shares is placed when more than 0.1 are held. -/
def sellOrdersToL (env : SwapEnv) : List MarketOrderPayload :=
  if env.preBase.quantity > 1 / 10 then
    [marketOrderPayload Ticker.base (env.preBase.quantity - 1 / 10) OrderSide.sell]
  else []

/-- The buy leg of HoldingNonLeveraged._swap_to_leveraged. -/
def buyOrderToL (env : SwapEnv) : MarketOrderPayload :=
  marketOrderPayload Ticker.lev
    (env.cashAvailable / env.preBuyLev.currentPrice * (9 / 10)) OrderSide.buy

/-- HoldingNonLeveraged._swap_to_leveraged (live_trading.py lines 518-639),
symmetric to swapToNonLeveraged with the instruments exchanged and a 0.1 share
sell residual. -/
def swapToLeveraged (sd : SignalData) (now : ℚ) (env : SwapEnv) :
    TraderState × List MarketOrderPayload :=
  if env.preBase.quantity > 1 / 10 ∧ env.sellPlaceOk = false then
    (TraderState.holdingNonLeveraged sd, [])
  else if env.postSellBase.quantity * env.postSellBase.currentPrice ≥
      env.preBase.quantity * env.preBase.currentPrice - 5 then
    (TraderState.holdingNonLeveraged sd, sellOrdersToL env)
  else if env.cashAvailable < 10 then
    (TraderState.holdingNonLeveraged sd, sellOrdersToL env)
  else if env.buyPlaceOk = false then
    (TraderState.holdingNonLeveraged sd, sellOrdersToL env)
  else if env.postBuyLev.quantity * env.postBuyLev.currentPrice ≤
      env.preBuyLev.quantity * env.preBuyLev.currentPrice + 5 then
    (TraderState.holdingNonLeveraged sd, sellOrdersToL env ++ [buyOrderToL env])
  else
    (TraderState.holdingLeveraged
      ⟨now, env.postBuyBase.currentPrice, env.postBuyLev.currentPrice,
        env.postBuyLev.currentPrice⟩,
      sellOrdersToL env ++ [buyOrderToL env])

/-- lev_diff_rel of live_trading.py lines 276-278 and 493-495. -/
def levDivergence (sd : SignalData) (levPrice : ℚ) : ℚ :=
  (levPrice - sd.levValueAtLastChange) / sd.levValueAtLastChange

/-- HoldingLeveraged.process (live_trading.py lines 246-299): reset the
reference when the base price changed, else swap when the leveraged divergence
strictly exceeds LEV_DIFF_INVEST and the elapsed time strictly exceeds
TIME_DIFF_INVEST, else stay. -/
def holdingLeveragedProcess (sd : SignalData) (basePos levPos : Position)
    (now : ℚ) (env : SwapEnv) : TraderState × List MarketOrderPayload :=
  if basePos.currentPrice ≠ sd.baseValueAtLastChange then
    (TraderState.holdingLeveraged
      ⟨now, basePos.currentPrice, levPos.currentPrice, sd.positionEntryPrice⟩, [])
  else if levDivergence sd levPos.currentPrice > LEV_DIFF_INVEST ∧
      now - sd.timeLastBaseChange > TIME_DIFF_INVEST then
    swapToNonLeveraged sd now env
  else
    (TraderState.holdingLeveraged sd, [])

/-- HoldingNonLeveraged.process (live_trading.py lines 439-516): take profit
when the base price is strictly above the entry price, stop loss when it is
strictly below entry times (1 - STOP_LOSS_THRESHOLD), else reset the reference
on a base price change keeping the entry price, else swap on negative
divergence past the dwell time, else stay. -/
def holdingNonLeveragedProcess (sd : SignalData) (basePos levPos : Position)
    (now : ℚ) (env : SwapEnv) : TraderState × List MarketOrderPayload :=
  if basePos.currentPrice > sd.positionEntryPrice then
    swapToLeveraged sd now env
  else if basePos.currentPrice < sd.positionEntryPrice * (1 - STOP_LOSS_THRESHOLD) then
    swapToLeveraged sd now env
  else if basePos.currentPrice ≠ sd.baseValueAtLastChange then
    (TraderState.holdingNonLeveraged
      ⟨now, basePos.currentPrice, levPos.currentPrice, sd.positionEntryPrice⟩, [])
  else if levDivergence sd levPos.currentPrice < -LEV_DIFF_INVEST ∧
      now - sd.timeLastBaseChange > TIME_DIFF_INVEST then
    swapToLeveraged sd now env
  else
    (TraderState.holdingNonLeveraged sd, [])

/-- Broker responses observed during Initializing.process: positions and cash
read after cancelling open orders, whether the buy placement raised, and the
positions fetched for the fill verification. -/
structure InitEnv where
  fetchedBase : Position
  fetchedLev : Position
  cashAvailable : ℚ
  buyPlaceOk : Bool
  postBuyBase : Position
  postBuyLev : Position
deriving DecidableEq

/-- The initialization buy order: quantity is cash / leveraged price and 0.9 of
it is ordered (live_trading.py lines 176-188). -/
def initBuyOrder (env : InitEnv) : MarketOrderPayload :=
  marketOrderPayload Ticker.lev
    (env.cashAvailable / env.fetchedLev.currentPrice * (9 / 10)) OrderSide.buy

/-- Initializing.process (live_trading.py lines 111-230): resume into the
holding whose market value strictly exceeds both the other value and the cash;
otherwise, when cash exceeds 10, buy leveraged and move to HoldingLeveraged
only when the post-buy leveraged value exceeds the pre-buy value by more than
5; otherwise stay in Initializing. -/
def initializingProcess (sd : SignalData) (now : ℚ) (env : InitEnv) :
    TraderState × List MarketOrderPayload :=
  if env.fetchedBase.quantity * env.fetchedBase.currentPrice >
      env.fetchedLev.quantity * env.fetchedLev.currentPrice ∧
      env.fetchedBase.quantity * env.fetchedBase.currentPrice > env.cashAvailable then
    (TraderState.holdingNonLeveraged
      ⟨now, env.fetchedBase.currentPrice, env.fetchedLev.currentPrice,
        env.fetchedBase.currentPrice⟩, [])
  else if env.fetchedLev.quantity * env.fetchedLev.currentPrice >
      env.fetchedBase.quantity * env.fetchedBase.currentPrice ∧
      env.fetchedLev.quantity * env.fetchedLev.currentPrice > env.cashAvailable then
    (TraderState.holdingLeveraged
      ⟨now, env.fetchedBase.currentPrice, env.fetchedLev.currentPrice,
        env.fetchedLev.currentPrice⟩, [])
  else if env.cashAvailable > 10 then
    if env.buyPlaceOk = false then
      (TraderState.initializing sd, [])
    else if env.postBuyLev.quantity * env.postBuyLev.currentPrice ≤
        env.fetchedLev.quantity * env.fetchedLev.currentPrice + 5 then
      (TraderState.initializing sd, [initBuyOrder env])
    else
      (TraderState.holdingLeveraged
        ⟨now, env.postBuyBase.currentPrice, env.postBuyLev.currentPrice,
          env.postBuyLev.currentPrice⟩, [initBuyOrder env])
  else
    (TraderState.initializing sd, [])

/-- has_order_been_filled of t212.py lines 315-323: an order id whose lookup
answers with HTTP status 404 is inferred filled. -/
def hasOrderBeenFilled (status : ℕ) : Bool :=
  status == 404

/-- The polling loop of wait_for_order_or_cancel (src/live_trading.py lines
79-94), fuel-indexed.  filled i is the answer of the i-th order lookup,
elapsedAfter i the wall-clock time elapsed after the sleep that follows poll i.
The result carries the returned boolean, whether a cancel was issued, and the
index of the last poll; none means the fuel ran out before the loop did. -/
def waitLoop (filled : ℕ → Bool) (elapsedAfter : ℕ → ℚ) (maxWait : ℚ) :
    ℕ → ℕ → Option (Bool × Bool × ℕ)
  | 0, _ => none
  | fuel + 1, i =>
    if filled i then some (true, false, i)
    else if elapsedAfter i > maxWait then some (false, true, i)
    else waitLoop filled elapsedAfter maxWait fuel (i + 1)

/-- wait_for_order_or_cancel of src/live_trading.py lines 79-94: one poll
before the loop, then the polling loop starting at index 1. -/
def waitForOrderOrCancel (statuses : ℕ → ℕ) (elapsedAfter : ℕ → ℚ)
    (maxWait : ℚ) (fuel : ℕ) : Option (Bool × Bool × ℕ) :=
  if hasOrderBeenFilled (statuses 0) then some (true, false, 0)
  else waitLoop (fun i => hasOrderBeenFilled (statuses i)) elapsedAfter maxWait fuel 1

/-- Python exception kinds raised by the embedded code. -/
inductive PyErr where
  | keyError
  | indexError
  | assertionError
deriving DecidableEq

/-- Modelled from the spec: the schedule event type enum Type3 of models.py,
which is not under src; only the OPEN member is inspected by utils.py, so the
model carries OPEN, CLOSE and a catch-all. -/
inductive Type3 where
  | OPEN
  | CLOSE
  | OTHER
deriving DecidableEq

/-- Modelled from the spec: a schedule TimeEvent of models.py (date and type),
dates as rational timestamps. -/
structure TimeEvent where
  date : ℚ
  type : Type3
deriving DecidableEq

/-- Modelled from the spec: WorkingSchedule of models.py, an id and an optional
event list. -/
structure WorkingSchedule where
  id : ℕ
  timeEvents : Option (List TimeEvent)
deriving DecidableEq

/-- Modelled from the spec: Exchange of models.py, carrying working
schedules. -/
structure Exchange where
  workingSchedules : List WorkingSchedule
deriving DecidableEq

/-- Modelled from the spec: TradableInstrument of models.py; utils.py reads
only workingScheduleId. -/
structure TradableInstrument where
  workingScheduleId : ℕ
deriving DecidableEq

/-- The ticker field of a position, the only field utils.py reads; ticker
strings are modelled as opaque naturals. -/
structure SchedPosition where
  ticker : ℕ
deriving DecidableEq

/-- Lookup in the instruments dict keyed by ticker; a missing key raises
KeyError in Python, here none. -/
def lookupInstrument (instruments : List (ℕ × TradableInstrument)) (t : ℕ) :
    Option TradableInstrument :=
  match instruments with
  | [] => none
  | (k, v) :: rest => if k = t then some v else lookupInstrument rest t

/-- get_working_schedules of utils.py lines 21-27: a dict built by assignment
over all schedules of all exchanges, later assignments overwriting earlier
ones. -/
def getWorkingSchedules (exchanges : List Exchange) : ℕ → Option WorkingSchedule :=
  exchanges.foldl
    (fun m ex =>
      ex.workingSchedules.foldl
        (fun m2 w => fun i => if i = w.id then some w else m2 i) m)
    (fun _ => none)

/-- is_exchange_open of utils.py lines 13-18: None when the event list is
falsy, else the type of the last event strictly before now; indexing the
filtered list raises IndexError when no event lies before now. -/
def isExchangeOpen (timeEvents : Option (List TimeEvent)) (now : ℚ) :
    Except PyErr (Option Bool) :=
  match timeEvents with
  | none => Except.ok none
  | some [] => Except.ok none
  | some evs =>
    match (evs.filter (fun t => t.date < now)).getLast? with
    | none => Except.error PyErr.indexError
    | some lastEvent => Except.ok (some (lastEvent.type == Type3.OPEN))

/-- A Python list comprehension whose element expression may raise: the whole
list is built left to right and the first raise propagates. -/
def exceptMap (f : α → Except PyErr β) : List α → Except PyErr (List β)
  | [] => Except.ok []
  | a :: as =>
    match f a with
    | Except.error e => Except.error e
    | Except.ok b =>
      match exceptMap f as with
      | Except.error e => Except.error e
      | Except.ok bs => Except.ok (b :: bs)

/-- all of Python over a list of Optional booleans: None and False are falsy. -/
def pyAll (opens : List (Option Bool)) : Bool :=
  opens.all (fun o => o.getD false)

/-- are_positions_tradeable of utils.py lines 30-38: resolve each position to
its instrument (KeyError when missing), each instrument to its working
schedule (KeyError when missing), apply is_exchange_open and take the
conjunction, None counting as false. -/
def arePositionsTradeable (exchanges : List Exchange)
    (instruments : List (ℕ × TradableInstrument)) (positions : List SchedPosition)
    (now : ℚ) : Except PyErr Bool :=
  match exceptMap
      (fun p =>
        match lookupInstrument instruments p.ticker with
        | some ins => Except.ok ins.workingScheduleId
        | none => Except.error PyErr.keyError) positions with
  | Except.error e => Except.error e
  | Except.ok ids =>
    match exceptMap
        (fun i =>
          match getWorkingSchedules exchanges i with
          | some w => Except.ok w
          | none => Except.error PyErr.keyError) ids with
    | Except.error e => Except.error e
    | Except.ok ws =>
      match exceptMap (fun w => isExchangeOpen w.timeEvents now) ws with
      | Except.error e => Except.error e
      | Except.ok opens => Except.ok (pyAll opens)

/-- The class name written by the main loop into the state snapshot. -/
inductive StateName where
  | initializingN
  | holdingLeveragedN
  | holdingNonLeveragedN
deriving DecidableEq

/-- The class name of a trader state, as used by write_state. -/
def TraderState.name : TraderState → StateName
  | TraderState.initializing _ => StateName.initializingN
  | TraderState.holdingLeveraged _ => StateName.holdingLeveragedN
  | TraderState.holdingNonLeveraged _ => StateName.holdingNonLeveragedN

/-- The row write_state of sb.py lines 33-48 inserts into the state table, fed
by main (live_trading.py lines 715-722) with the state class name and three of
the four SignalData fields. -/
structure StateRow where
  stateName : StateName
  timeLastBaseChange : ℚ
  baseValueAtLastChange : ℚ
  levValueAtLastChange : ℚ
deriving DecidableEq

/-- write_state as invoked by main: the persisted snapshot of the trader
state.  position_entry_price is not among the columns. -/
def writeState (s : StateName) (sd : SignalData) : StateRow :=
  ⟨s, sd.timeLastBaseChange, sd.baseValueAtLastChange, sd.levValueAtLastChange⟩

/-- Reading a persisted snapshot back: the row exposes the state name and the
three persisted SignalData fields. -/
def readStateRow (r : StateRow) : StateName × ℚ × ℚ × ℚ :=
  (r.stateName, r.timeLastBaseChange, r.baseValueAtLastChange, r.levValueAtLastChange)

/-- send_message of src/tgbot.py lines 25-29: posts the text and asserts the
response status is 200, so a non-200 response raises AssertionError. -/
def sendMessage (status : ℕ) : Except PyErr Unit :=
  if status = 200 then Except.ok () else Except.error PyErr.assertionError

/-- HoldingLeveraged.process with the swap-trigger notification of
live_trading.py lines 288-295 made explicit: send_message runs before the swap
and is not wrapped in any try block, so its exception propagates out of the
step.  notifyStatus is the HTTP status of that notification; the notifications
inside the swap legs are taken as delivered. -/
def holdingLeveragedProcessNotify (sd : SignalData) (basePos levPos : Position)
    (now : ℚ) (env : SwapEnv) (notifyStatus : ℕ) :
    Except PyErr (TraderState × List MarketOrderPayload) :=
  if basePos.currentPrice ≠ sd.baseValueAtLastChange then
    Except.ok
      (TraderState.holdingLeveraged
        ⟨now, basePos.currentPrice, levPos.currentPrice, sd.positionEntryPrice⟩, [])
  else if levDivergence sd levPos.currentPrice > LEV_DIFF_INVEST ∧
      now - sd.timeLastBaseChange > TIME_DIFF_INVEST then
    match sendMessage notifyStatus with
    | Except.error e => Except.error e
    | Except.ok _ => Except.ok (swapToNonLeveraged sd now env)
  else
    Except.ok (TraderState.holdingLeveraged sd, [])

/-- A swap environment with all broker reads zero and both placements
succeeding. -/
def envZero : SwapEnv :=
  ⟨⟨0, 0⟩, ⟨0, 0⟩, true, ⟨0, 0⟩, ⟨0, 0⟩, 0, ⟨0, 0⟩, ⟨0, 0⟩, true, ⟨0, 0⟩, ⟨0, 0⟩⟩

/-- Reference data: last base change at time 0, base 100, leveraged 50, entry
price 100. -/
def sdRef : SignalData := ⟨0, 100, 50, 100⟩

/-- Base position quoted at 100 (equal to the reference). -/
def bp100 : Position := ⟨1, 100⟩

/-- Base position quoted at 99. -/
def bp99 : Position := ⟨1, 99⟩

/-- Base position quoted at 99.8: between the stop-loss price 99.5 and the
entry 100, and different from the reference base 100. -/
def bp998 : Position := ⟨1, 998 / 10⟩

/-- Base position quoted at 101. -/
def bp101 : Position := ⟨1, 101⟩

/-- Leveraged position quoted at 50. -/
def lp50 : Position := ⟨1, 50⟩

/-- Leveraged position quoted at 50.2: divergence from reference 50 is exactly
0.004. -/
def lp502 : Position := ⟨1, 502 / 10⟩

/-- Leveraged position quoted at 50.21: divergence from reference 50 is 0.0042. -/
def lp5021 : Position := ⟨1, 5021 / 100⟩

/-- Leveraged position quoted at 49.8: divergence from reference 50 is exactly
-0.004. -/
def lp498 : Position := ⟨1, 498 / 10⟩

/-- Leveraged position quoted at 49.7: divergence from reference 50 is -0.006. -/
def lp497 : Position := ⟨1, 497 / 10⟩

/-- A swap environment whose sell placement raises, with more than the sell
residual held on both sides. -/
def envSellFail : SwapEnv :=
  ⟨⟨1, 101⟩, ⟨1, 50⟩, false, ⟨0, 0⟩, ⟨0, 0⟩, 0, ⟨0, 0⟩, ⟨0, 0⟩, true, ⟨0, 0⟩, ⟨0, 0⟩⟩

/-- Reference data for the stop-loss scenario with entry 100 and base quoted at
99.49. -/
def sd9949 : SignalData := ⟨0, 9949 / 100, 50, 100⟩

/-- Base position quoted at 99.49. -/
def bp9949 : Position := ⟨1, 9949 / 100⟩

/-- Reference data for the stop-loss scenario with entry 100 and base quoted at
99.51. -/
def sd9951 : SignalData := ⟨0, 9951 / 100, 50, 100⟩

/-- Base position quoted at 99.51. -/
def bp9951 : Position := ⟨1, 9951 / 100⟩

/-- The all-zero signal seed. -/
def sdZero : SignalData := ⟨0, 0, 0, 0⟩

/-- Initialization environment where both holdings are worth 1000, cash is 500,
and the buy fills: neither side dominates the other and cash dominates
nothing, yet cash exceeds 10. -/
def envC5 : InitEnv := ⟨⟨10, 100⟩, ⟨10, 100⟩, 500, true, ⟨1, 1⟩, ⟨20, 100⟩⟩

/-- Two signal records that differ only in position_entry_price. -/
def sdC8a : SignalData := ⟨0, 1, 2, 3⟩

/-- Two signal records that differ only in position_entry_price. -/
def sdC8b : SignalData := ⟨0, 1, 2, 4⟩

/-- Swap environment where the sell leg fills and frees exactly 10 cash while
the base trades at 1000, so the full-cash quantity is 0.01 shares. -/
def envC10 : SwapEnv :=
  ⟨⟨1, 1⟩, ⟨1, 100⟩, true, ⟨0, 0⟩, ⟨1 / 100, 100⟩, 10, ⟨1 / 100, 1000⟩, ⟨0, 0⟩,
    true, ⟨3 / 100, 1000⟩, ⟨1, 50⟩⟩

/-- An order-lookup stream that always answers HTTP 200 (the order is never
reported missing). -/
def statuses200 : ℕ → ℕ := fun _ => 200

/-- Wall-clock elapsed time when every poll cycle takes 1.1 seconds. -/
def elapsed11 : ℕ → ℚ := fun i => (11 / 10) * ((i : ℚ) + 1)

/-- One exchange whose only schedule (id 1) has a single OPEN event at time
10. -/
def exchC7 : List Exchange := [⟨[⟨1, some [⟨10, Type3.OPEN⟩]⟩]⟩]

/-- One instrument, ticker 7, on working schedule 1. -/
def instC7 : List (ℕ × TradableInstrument) := [(7, ⟨1⟩)]

/-- One position on ticker 7. -/
def posC7 : List SchedPosition := [⟨7⟩]

theorem hlp_changed (sd : SignalData) (bp lp : Position) (now : ℚ) (env : SwapEnv)
    (h : bp.currentPrice ≠ sd.baseValueAtLastChange) :
    holdingLeveragedProcess sd bp lp now env =
      (TraderState.holdingLeveraged
        ⟨now, bp.currentPrice, lp.currentPrice, sd.positionEntryPrice⟩, []) := by
  unfold holdingLeveragedProcess
  rw [if_pos h]

theorem hlp_unchanged (sd : SignalData) (bp lp : Position) (now : ℚ) (env : SwapEnv)
    (h : bp.currentPrice = sd.baseValueAtLastChange) :
    holdingLeveragedProcess sd bp lp now env =
      if levDivergence sd lp.currentPrice > LEV_DIFF_INVEST ∧
          now - sd.timeLastBaseChange > TIME_DIFF_INVEST
      then swapToNonLeveraged sd now env
      else (TraderState.holdingLeveraged sd, []) := by
  unfold holdingLeveragedProcess
  rw [if_neg (not_not_intro h)]

theorem hnp_profit (sd : SignalData) (bp lp : Position) (now : ℚ) (env : SwapEnv)
    (h : bp.currentPrice > sd.positionEntryPrice) :
    holdingNonLeveragedProcess sd bp lp now env = swapToLeveraged sd now env := by
  unfold holdingNonLeveragedProcess
  rw [if_pos h]

theorem hnp_stop (sd : SignalData) (bp lp : Position) (now : ℚ) (env : SwapEnv)
    (h1 : ¬bp.currentPrice > sd.positionEntryPrice)
    (h2 : bp.currentPrice < sd.positionEntryPrice * (1 - STOP_LOSS_THRESHOLD)) :
    holdingNonLeveragedProcess sd bp lp now env = swapToLeveraged sd now env := by
  unfold holdingNonLeveragedProcess
  rw [if_neg h1, if_pos h2]

theorem hnp_changed (sd : SignalData) (bp lp : Position) (now : ℚ) (env : SwapEnv)
    (h1 : ¬bp.currentPrice > sd.positionEntryPrice)
    (h2 : ¬bp.currentPrice < sd.positionEntryPrice * (1 - STOP_LOSS_THRESHOLD))
    (h3 : bp.currentPrice ≠ sd.baseValueAtLastChange) :
    holdingNonLeveragedProcess sd bp lp now env =
      (TraderState.holdingNonLeveraged
        ⟨now, bp.currentPrice, lp.currentPrice, sd.positionEntryPrice⟩, []) := by
  unfold holdingNonLeveragedProcess
  rw [if_neg h1, if_neg h2, if_pos h3]

theorem hnp_unchanged (sd : SignalData) (bp lp : Position) (now : ℚ) (env : SwapEnv)
    (h1 : ¬bp.currentPrice > sd.positionEntryPrice)
    (h2 : ¬bp.currentPrice < sd.positionEntryPrice * (1 - STOP_LOSS_THRESHOLD))
    (h3 : bp.currentPrice = sd.baseValueAtLastChange) :
    holdingNonLeveragedProcess sd bp lp now env =
      if levDivergence sd lp.currentPrice < -LEV_DIFF_INVEST ∧
          now - sd.timeLastBaseChange > TIME_DIFF_INVEST
      then swapToLeveraged sd now env
      else (TraderState.holdingNonLeveraged sd, []) := by
  unfold holdingNonLeveragedProcess
  rw [if_neg h1, if_neg h2, if_neg (not_not_intro h3)]

theorem snl_sellFail (sd : SignalData) (now : ℚ) (env : SwapEnv)
    (hq : env.preLev.quantity > 1 / 100) (hs : env.sellPlaceOk = false) :
    swapToNonLeveraged sd now env = (TraderState.holdingLeveraged sd, []) := by
  unfold swapToNonLeveraged
  rw [if_pos ⟨hq, hs⟩]

theorem stl_sellFail (sd : SignalData) (now : ℚ) (env : SwapEnv)
    (hq : env.preBase.quantity > 1 / 10) (hs : env.sellPlaceOk = false) :
    swapToLeveraged sd now env = (TraderState.holdingNonLeveraged sd, []) := by
  unfold swapToLeveraged
  rw [if_pos ⟨hq, hs⟩]

/-- Claim C1, counterexample: in HoldingNonLeveraged with reference base 100
and entry 100, a tick at base price 101 differs from the reference, yet the
take-profit trigger runs first and, with the sell leg failing, the returned
state keeps the old reference (base 100, time 0) instead of being replaced by
the current base price, leveraged price and time. -/
theorem c1_counterexample :
    bp101.currentPrice ≠ sdRef.baseValueAtLastChange ∧
    holdingNonLeveragedProcess sdRef bp101 lp50 7 envSellFail =
      (TraderState.holdingNonLeveraged sdRef, []) ∧
    sdRef.baseValueAtLastChange ≠ bp101.currentPrice ∧
    sdRef.timeLastBaseChange ≠ 7 := by
  refine ⟨by norm_num [bp101, sdRef], ?_, by norm_num [bp101, sdRef],
    by norm_num [sdRef]⟩
  rw [hnp_profit sdRef bp101 lp50 7 envSellFail (by norm_num [bp101, sdRef])]
  exact stl_sellFail sdRef 7 envSellFail (by norm_num [envSellFail]) rfl

/-- Claim C1, amended: in HoldingLeveraged, and in HoldingNonLeveraged when
neither the take-profit nor the stop-loss trigger fires, a tick whose base
price equals the reference base price decides the swap by the divergence
(levPrice - refLev) / refLev, and a tick whose base price differs computes no
divergence and returns a state whose reference is the current base price,
current leveraged price and current time (the entry price is kept); the
divergence is exactly (lev - refLev) / refLev. -/
theorem c1_divergence_and_reference :
    (∀ (sd : SignalData) (lev : ℚ),
      levDivergence sd lev =
        (lev - sd.levValueAtLastChange) / sd.levValueAtLastChange) ∧
    (∀ (sd : SignalData) (bp lp : Position) (now : ℚ) (env : SwapEnv),
      bp.currentPrice ≠ sd.baseValueAtLastChange →
      holdingLeveragedProcess sd bp lp now env =
        (TraderState.holdingLeveraged
          ⟨now, bp.currentPrice, lp.currentPrice, sd.positionEntryPrice⟩, [])) ∧
    (∀ (sd : SignalData) (bp lp : Position) (now : ℚ) (env : SwapEnv),
      bp.currentPrice = sd.baseValueAtLastChange →
      holdingLeveragedProcess sd bp lp now env =
        if levDivergence sd lp.currentPrice > LEV_DIFF_INVEST ∧
            now - sd.timeLastBaseChange > TIME_DIFF_INVEST
        then swapToNonLeveraged sd now env
        else (TraderState.holdingLeveraged sd, [])) ∧
    (∀ (sd : SignalData) (bp lp : Position) (now : ℚ) (env : SwapEnv),
      ¬bp.currentPrice > sd.positionEntryPrice →
      ¬bp.currentPrice < sd.positionEntryPrice * (1 - STOP_LOSS_THRESHOLD) →
      bp.currentPrice ≠ sd.baseValueAtLastChange →
      holdingNonLeveragedProcess sd bp lp now env =
        (TraderState.holdingNonLeveraged
          ⟨now, bp.currentPrice, lp.currentPrice, sd.positionEntryPrice⟩, [])) ∧
    (∀ (sd : SignalData) (bp lp : Position) (now : ℚ) (env : SwapEnv),
      ¬bp.currentPrice > sd.positionEntryPrice →
      ¬bp.currentPrice < sd.positionEntryPrice * (1 - STOP_LOSS_THRESHOLD) →
      bp.currentPrice = sd.baseValueAtLastChange →
      holdingNonLeveragedProcess sd bp lp now env =
        if levDivergence sd lp.currentPrice < -LEV_DIFF_INVEST ∧
            now - sd.timeLastBaseChange > TIME_DIFF_INVEST
        then swapToLeveraged sd now env
        else (TraderState.holdingNonLeveraged sd, [])) := by
  exact ⟨fun _ _ => rfl, hlp_changed, hlp_unchanged, hnp_changed, hnp_unchanged⟩

/-- Claim C1, witness: the amended claim applied at concrete ticks. -/
theorem c1_witness :
    holdingLeveragedProcess sdRef bp99 lp50 5 envZero =
      (TraderState.holdingLeveraged
        ⟨5, bp99.currentPrice, lp50.currentPrice, sdRef.positionEntryPrice⟩, []) ∧
    holdingLeveragedProcess sdRef bp100 lp5021 130 envZero =
      (if levDivergence sdRef lp5021.currentPrice > LEV_DIFF_INVEST ∧
          (130 : ℚ) - sdRef.timeLastBaseChange > TIME_DIFF_INVEST
       then swapToNonLeveraged sdRef 130 envZero
       else (TraderState.holdingLeveraged sdRef, [])) ∧
    holdingNonLeveragedProcess sdRef bp998 lp50 5 envZero =
      (TraderState.holdingNonLeveraged
        ⟨5, bp998.currentPrice, lp50.currentPrice, sdRef.positionEntryPrice⟩, []) ∧
    holdingNonLeveragedProcess sdRef bp100 lp497 130 envZero =
      (if levDivergence sdRef lp497.currentPrice < -LEV_DIFF_INVEST ∧
          (130 : ℚ) - sdRef.timeLastBaseChange > TIME_DIFF_INVEST
       then swapToLeveraged sdRef 130 envZero
       else (TraderState.holdingNonLeveraged sdRef, [])) :=
  ⟨c1_divergence_and_reference.2.1 sdRef bp99 lp50 5 envZero
     (by norm_num [bp99, sdRef]),
   c1_divergence_and_reference.2.2.1 sdRef bp100 lp5021 130 envZero
     (by norm_num [bp100, sdRef]),
   c1_divergence_and_reference.2.2.2.1 sdRef bp998 lp50 5 envZero
     (by norm_num [bp998, sdRef])
     (by norm_num [bp998, sdRef, STOP_LOSS_THRESHOLD])
     (by norm_num [bp998, sdRef]),
   c1_divergence_and_reference.2.2.2.2 sdRef bp100 lp497 130 envZero
     (by norm_num [bp100, sdRef])
     (by norm_num [bp100, sdRef, STOP_LOSS_THRESHOLD])
     (by norm_num [bp100, sdRef])⟩

/-- Claim C2: in both holding states the divergence swap fires only under
strict inequalities: divergence exactly at the threshold (0.004, or -0.004 in
HoldingNonLeveraged) does not fire and places no orders, strictly beyond the
threshold with elapsed time strictly above the two minute dwell fires the swap,
and strictly beyond the threshold with elapsed time at or below the dwell does
not transition and places no orders. -/
theorem c2_strict_threshold_and_dwell :
    (∀ (sd : SignalData) (bp lp : Position) (now : ℚ) (env : SwapEnv),
      bp.currentPrice = sd.baseValueAtLastChange →
      levDivergence sd lp.currentPrice = LEV_DIFF_INVEST →
      holdingLeveragedProcess sd bp lp now env =
        (TraderState.holdingLeveraged sd, [])) ∧
    (∀ (sd : SignalData) (bp lp : Position) (now : ℚ) (env : SwapEnv),
      bp.currentPrice = sd.baseValueAtLastChange →
      levDivergence sd lp.currentPrice > LEV_DIFF_INVEST →
      now - sd.timeLastBaseChange > TIME_DIFF_INVEST →
      holdingLeveragedProcess sd bp lp now env = swapToNonLeveraged sd now env) ∧
    (∀ (sd : SignalData) (bp lp : Position) (now : ℚ) (env : SwapEnv),
      bp.currentPrice = sd.baseValueAtLastChange →
      levDivergence sd lp.currentPrice > LEV_DIFF_INVEST →
      now - sd.timeLastBaseChange ≤ TIME_DIFF_INVEST →
      holdingLeveragedProcess sd bp lp now env =
        (TraderState.holdingLeveraged sd, [])) ∧
    (∀ (sd : SignalData) (bp lp : Position) (now : ℚ) (env : SwapEnv),
      ¬bp.currentPrice > sd.positionEntryPrice →
      ¬bp.currentPrice < sd.positionEntryPrice * (1 - STOP_LOSS_THRESHOLD) →
      bp.currentPrice = sd.baseValueAtLastChange →
      levDivergence sd lp.currentPrice = -LEV_DIFF_INVEST →
      holdingNonLeveragedProcess sd bp lp now env =
        (TraderState.holdingNonLeveraged sd, [])) ∧
    (∀ (sd : SignalData) (bp lp : Position) (now : ℚ) (env : SwapEnv),
      ¬bp.currentPrice > sd.positionEntryPrice →
      ¬bp.currentPrice < sd.positionEntryPrice * (1 - STOP_LOSS_THRESHOLD) →
      bp.currentPrice = sd.baseValueAtLastChange →
      levDivergence sd lp.currentPrice < -LEV_DIFF_INVEST →
      now - sd.timeLastBaseChange > TIME_DIFF_INVEST →
      holdingNonLeveragedProcess sd bp lp now env = swapToLeveraged sd now env) ∧
    (∀ (sd : SignalData) (bp lp : Position) (now : ℚ) (env : SwapEnv),
      ¬bp.currentPrice > sd.positionEntryPrice →
      ¬bp.currentPrice < sd.positionEntryPrice * (1 - STOP_LOSS_THRESHOLD) →
      bp.currentPrice = sd.baseValueAtLastChange →
      levDivergence sd lp.currentPrice < -LEV_DIFF_INVEST →
      now - sd.timeLastBaseChange ≤ TIME_DIFF_INVEST →
      holdingNonLeveragedProcess sd bp lp now env =
        (TraderState.holdingNonLeveraged sd, [])) := by
  refine ⟨?_, ?_, ?_, ?_, ?_, ?_⟩
  · intro sd bp lp now env hb hd
    rw [hlp_unchanged sd bp lp now env hb, if_neg]
    rintro ⟨h1, _⟩
    exact absurd h1 (hd ▸ lt_irrefl _)
  · intro sd bp lp now env hb hd ht
    rw [hlp_unchanged sd bp lp now env hb, if_pos ⟨hd, ht⟩]
  · intro sd bp lp now env hb hd ht
    rw [hlp_unchanged sd bp lp now env hb, if_neg]
    rintro ⟨_, h2⟩
    exact absurd h2 (not_lt.mpr ht)
  · intro sd bp lp now env h1 h2 hb hd
    rw [hnp_unchanged sd bp lp now env h1 h2 hb, if_neg]
    rintro ⟨hlt, _⟩
    exact absurd hlt (hd ▸ lt_irrefl _)
  · intro sd bp lp now env h1 h2 hb hd ht
    rw [hnp_unchanged sd bp lp now env h1 h2 hb, if_pos ⟨hd, ht⟩]
  · intro sd bp lp now env h1 h2 hb hd ht
    rw [hnp_unchanged sd bp lp now env h1 h2 hb, if_neg]
    rintro ⟨_, h4⟩
    exact absurd h4 (not_lt.mpr ht)

/-- Claim C2, witness: at base 100 equal to the reference, leveraged reference
50: leveraged 50.2 (divergence exactly 0.004) stays, leveraged 50.21
(divergence 0.0042) with 130 seconds elapsed swaps, and with only 60 seconds
elapsed stays; on the non-leveraged side leveraged 49.8 (divergence exactly
-0.004) stays and 49.7 (divergence -0.006) with 130 seconds elapsed swaps. -/
theorem c2_witness :
    holdingLeveragedProcess sdRef bp100 lp502 130 envZero =
      (TraderState.holdingLeveraged sdRef, []) ∧
    holdingLeveragedProcess sdRef bp100 lp5021 130 envZero =
      swapToNonLeveraged sdRef 130 envZero ∧
    holdingLeveragedProcess sdRef bp100 lp5021 60 envZero =
      (TraderState.holdingLeveraged sdRef, []) ∧
    holdingNonLeveragedProcess sdRef bp100 lp498 130 envZero =
      (TraderState.holdingNonLeveraged sdRef, []) ∧
    holdingNonLeveragedProcess sdRef bp100 lp497 130 envZero =
      swapToLeveraged sdRef 130 envZero ∧
    holdingNonLeveragedProcess sdRef bp100 lp497 60 envZero =
      (TraderState.holdingNonLeveraged sdRef, []) :=
  ⟨c2_strict_threshold_and_dwell.1 sdRef bp100 lp502 130 envZero
      (by norm_num [bp100, sdRef])
      (by norm_num [levDivergence, sdRef, lp502, LEV_DIFF_INVEST]),
   c2_strict_threshold_and_dwell.2.1 sdRef bp100 lp5021 130 envZero
      (by norm_num [bp100, sdRef])
      (by norm_num [levDivergence, sdRef, lp5021, LEV_DIFF_INVEST])
      (by norm_num [sdRef, TIME_DIFF_INVEST]),
   c2_strict_threshold_and_dwell.2.2.1 sdRef bp100 lp5021 60 envZero
      (by norm_num [bp100, sdRef])
      (by norm_num [levDivergence, sdRef, lp5021, LEV_DIFF_INVEST])
      (by norm_num [sdRef, TIME_DIFF_INVEST]),
   c2_strict_threshold_and_dwell.2.2.2.1 sdRef bp100 lp498 130 envZero
      (by norm_num [bp100, sdRef])
      (by norm_num [bp100, sdRef, STOP_LOSS_THRESHOLD])
      (by norm_num [bp100, sdRef])
      (by norm_num [levDivergence, sdRef, lp498, LEV_DIFF_INVEST]),
   c2_strict_threshold_and_dwell.2.2.2.2.1 sdRef bp100 lp497 130 envZero
      (by norm_num [bp100, sdRef])
      (by norm_num [bp100, sdRef, STOP_LOSS_THRESHOLD])
      (by norm_num [bp100, sdRef])
      (by norm_num [levDivergence, sdRef, lp497, LEV_DIFF_INVEST])
      (by norm_num [sdRef, TIME_DIFF_INVEST]),
   c2_strict_threshold_and_dwell.2.2.2.2.2 sdRef bp100 lp497 60 envZero
      (by norm_num [bp100, sdRef])
      (by norm_num [bp100, sdRef, STOP_LOSS_THRESHOLD])
      (by norm_num [bp100, sdRef])
      (by norm_num [levDivergence, sdRef, lp497, LEV_DIFF_INVEST])
      (by norm_num [sdRef, TIME_DIFF_INVEST])⟩

/-- Claim C3: HoldingNonLeveraged.process evaluates take-profit first (base
strictly above entry swaps to leveraged), then stop-loss (base strictly below
entry times 0.995 swaps), then resets the divergence reference keeping the
entry price when the base price changed without triggering, then swaps on
negative divergence past the dwell time; with entry 100, base 99.49 triggers
the stop-loss for every leveraged price and environment while base 99.51
triggers nothing. -/
theorem c3_priority_order :
    (∀ (sd : SignalData) (bp lp : Position) (now : ℚ) (env : SwapEnv),
      bp.currentPrice > sd.positionEntryPrice →
      holdingNonLeveragedProcess sd bp lp now env = swapToLeveraged sd now env) ∧
    (∀ (sd : SignalData) (bp lp : Position) (now : ℚ) (env : SwapEnv),
      ¬bp.currentPrice > sd.positionEntryPrice →
      bp.currentPrice < sd.positionEntryPrice * (1 - STOP_LOSS_THRESHOLD) →
      holdingNonLeveragedProcess sd bp lp now env = swapToLeveraged sd now env) ∧
    (∀ (sd : SignalData) (bp lp : Position) (now : ℚ) (env : SwapEnv),
      ¬bp.currentPrice > sd.positionEntryPrice →
      ¬bp.currentPrice < sd.positionEntryPrice * (1 - STOP_LOSS_THRESHOLD) →
      bp.currentPrice ≠ sd.baseValueAtLastChange →
      holdingNonLeveragedProcess sd bp lp now env =
        (TraderState.holdingNonLeveraged
          ⟨now, bp.currentPrice, lp.currentPrice, sd.positionEntryPrice⟩, [])) ∧
    (∀ (sd : SignalData) (bp lp : Position) (now : ℚ) (env : SwapEnv),
      ¬bp.currentPrice > sd.positionEntryPrice →
      ¬bp.currentPrice < sd.positionEntryPrice * (1 - STOP_LOSS_THRESHOLD) →
      bp.currentPrice = sd.baseValueAtLastChange →
      levDivergence sd lp.currentPrice < -LEV_DIFF_INVEST →
      now - sd.timeLastBaseChange > TIME_DIFF_INVEST →
      holdingNonLeveragedProcess sd bp lp now env = swapToLeveraged sd now env) ∧
    (∀ (lp : Position) (now : ℚ) (env : SwapEnv),
      holdingNonLeveragedProcess sd9949 bp9949 lp now env =
        swapToLeveraged sd9949 now env) ∧
    holdingNonLeveragedProcess sd9951 bp9951 lp50 1000 envZero =
      (TraderState.holdingNonLeveraged sd9951, []) := by
  refine ⟨hnp_profit, hnp_stop, hnp_changed, ?_, ?_, ?_⟩
  · intro sd bp lp now env h1 h2 hb hd ht
    rw [hnp_unchanged sd bp lp now env h1 h2 hb, if_pos ⟨hd, ht⟩]
  · intro lp now env
    exact hnp_stop sd9949 bp9949 lp now env
      (by norm_num [bp9949, sd9949])
      (by norm_num [bp9949, sd9949, STOP_LOSS_THRESHOLD])
  · rw [hnp_unchanged sd9951 bp9951 lp50 1000 envZero
      (by norm_num [bp9951, sd9951])
      (by norm_num [bp9951, sd9951, STOP_LOSS_THRESHOLD])
      (by norm_num [bp9951, sd9951]), if_neg]
    rintro ⟨hlt, _⟩
    exact absurd hlt (by norm_num [levDivergence, sd9951, lp50, LEV_DIFF_INVEST])

/-- Claim C3, witness: the branch characterizations at concrete ticks: base
101 above entry 100 take-profits, base 99.49 stop-losses, base 99 resets the
reference keeping the entry, and base 100 with divergence -0.006 past the
dwell swaps. -/
theorem c3_witness :
    holdingNonLeveragedProcess sdRef bp101 lp50 7 envZero =
      swapToLeveraged sdRef 7 envZero ∧
    holdingNonLeveragedProcess sd9949 bp9949 lp50 7 envZero =
      swapToLeveraged sd9949 7 envZero ∧
    holdingNonLeveragedProcess sdRef bp998 lp50 7 envZero =
      (TraderState.holdingNonLeveraged
        ⟨7, bp998.currentPrice, lp50.currentPrice, sdRef.positionEntryPrice⟩, []) ∧
    holdingNonLeveragedProcess sdRef bp100 lp497 130 envZero =
      swapToLeveraged sdRef 130 envZero :=
  ⟨c3_priority_order.1 sdRef bp101 lp50 7 envZero (by norm_num [bp101, sdRef]),
   c3_priority_order.2.1 sd9949 bp9949 lp50 7 envZero
      (by norm_num [bp9949, sd9949])
      (by norm_num [bp9949, sd9949, STOP_LOSS_THRESHOLD]),
   c3_priority_order.2.2.1 sdRef bp998 lp50 7 envZero
      (by norm_num [bp998, sdRef])
      (by norm_num [bp998, sdRef, STOP_LOSS_THRESHOLD])
      (by norm_num [bp998, sdRef]),
   c3_priority_order.2.2.2.1 sdRef bp100 lp497 130 envZero
      (by norm_num [bp100, sdRef])
      (by norm_num [bp100, sdRef, STOP_LOSS_THRESHOLD])
      (by norm_num [bp100, sdRef])
      (by norm_num [levDivergence, sdRef, lp497, LEV_DIFF_INVEST])
      (by norm_num [sdRef, TIME_DIFF_INVEST])⟩

theorem snl_sell_unverified (sd : SignalData) (now : ℚ) (env : SwapEnv)
    (h : env.postSellLev.quantity * env.postSellLev.currentPrice ≥
      env.preLev.quantity * env.preLev.currentPrice - 5) :
    (swapToNonLeveraged sd now env).1 = TraderState.holdingLeveraged sd := by
  unfold swapToNonLeveraged
  split_ifs <;> rfl

theorem snl_noCash (sd : SignalData) (now : ℚ) (env : SwapEnv)
    (h : env.cashAvailable < 10) :
    (swapToNonLeveraged sd now env).1 = TraderState.holdingLeveraged sd := by
  unfold swapToNonLeveraged
  split_ifs <;> rfl

theorem snl_buyFail (sd : SignalData) (now : ℚ) (env : SwapEnv)
    (h : env.buyPlaceOk = false) :
    (swapToNonLeveraged sd now env).1 = TraderState.holdingLeveraged sd := by
  unfold swapToNonLeveraged
  split_ifs <;> rfl

theorem snl_buy_unverified (sd : SignalData) (now : ℚ) (env : SwapEnv)
    (h : env.postBuyBase.quantity * env.postBuyBase.currentPrice ≤
      env.preBuyBase.quantity * env.preBuyBase.currentPrice + 5) :
    (swapToNonLeveraged sd now env).1 = TraderState.holdingLeveraged sd := by
  unfold swapToNonLeveraged
  split_ifs <;> rfl

theorem snl_orders_shape (sd : SignalData) (now : ℚ) (env : SwapEnv) :
    (swapToNonLeveraged sd now env).2 = [] ∨
    (swapToNonLeveraged sd now env).2 = sellOrdersToNL env ∨
    (swapToNonLeveraged sd now env).2 = sellOrdersToNL env ++ [buyOrderToNL env] := by
  unfold swapToNonLeveraged
  split_ifs <;>
    first
      | exact Or.inl rfl
      | exact Or.inr (Or.inl rfl)
      | exact Or.inr (Or.inr rfl)

theorem stl_sell_unverified (sd : SignalData) (now : ℚ) (env : SwapEnv)
    (h : env.postSellBase.quantity * env.postSellBase.currentPrice ≥
      env.preBase.quantity * env.preBase.currentPrice - 5) :
    (swapToLeveraged sd now env).1 = TraderState.holdingNonLeveraged sd := by
  unfold swapToLeveraged
  split_ifs <;> rfl

theorem stl_noCash (sd : SignalData) (now : ℚ) (env : SwapEnv)
    (h : env.cashAvailable < 10) :
    (swapToLeveraged sd now env).1 = TraderState.holdingNonLeveraged sd := by
  unfold swapToLeveraged
  split_ifs <;> rfl

theorem stl_buyFail (sd : SignalData) (now : ℚ) (env : SwapEnv)
    (h : env.buyPlaceOk = false) :
    (swapToLeveraged sd now env).1 = TraderState.holdingNonLeveraged sd := by
  unfold swapToLeveraged
  split_ifs <;> rfl

theorem stl_buy_unverified (sd : SignalData) (now : ℚ) (env : SwapEnv)
    (h : env.postBuyLev.quantity * env.postBuyLev.currentPrice ≤
      env.preBuyLev.quantity * env.preBuyLev.currentPrice + 5) :
    (swapToLeveraged sd now env).1 = TraderState.holdingNonLeveraged sd := by
  unfold swapToLeveraged
  split_ifs <;> rfl

theorem stl_orders_shape (sd : SignalData) (now : ℚ) (env : SwapEnv) :
    (swapToLeveraged sd now env).2 = [] ∨
    (swapToLeveraged sd now env).2 = sellOrdersToL env ∨
    (swapToLeveraged sd now env).2 = sellOrdersToL env ++ [buyOrderToL env] := by
  unfold swapToLeveraged
  split_ifs <;>
    first
      | exact Or.inl rfl
      | exact Or.inr (Or.inl rfl)
      | exact Or.inr (Or.inr rfl)

/-- Claim C4: every failure branch of a two-leg swap — the sell placement
raising, the sell fill not verified (value did not drop by more than 5), cash
below 10 after the sell, the buy placement raising, or the buy fill not
verified (value did not rise by more than 5) — returns a state of the same
holding variant carrying the pre-swap SignalData unchanged; the swap is not
retried in the cycle (the placed orders are at most one sell followed by at
most one buy) and no error propagates (the swap is a total function into a
state). -/
theorem c4_swap_failure_branches :
    (∀ (sd : SignalData) (now : ℚ) (env : SwapEnv),
      env.preLev.quantity > 1 / 100 → env.sellPlaceOk = false →
      swapToNonLeveraged sd now env = (TraderState.holdingLeveraged sd, [])) ∧
    (∀ (sd : SignalData) (now : ℚ) (env : SwapEnv),
      env.postSellLev.quantity * env.postSellLev.currentPrice ≥
        env.preLev.quantity * env.preLev.currentPrice - 5 →
      (swapToNonLeveraged sd now env).1 = TraderState.holdingLeveraged sd) ∧
    (∀ (sd : SignalData) (now : ℚ) (env : SwapEnv),
      env.cashAvailable < 10 →
      (swapToNonLeveraged sd now env).1 = TraderState.holdingLeveraged sd) ∧
    (∀ (sd : SignalData) (now : ℚ) (env : SwapEnv),
      env.buyPlaceOk = false →
      (swapToNonLeveraged sd now env).1 = TraderState.holdingLeveraged sd) ∧
    (∀ (sd : SignalData) (now : ℚ) (env : SwapEnv),
      env.postBuyBase.quantity * env.postBuyBase.currentPrice ≤
        env.preBuyBase.quantity * env.preBuyBase.currentPrice + 5 →
      (swapToNonLeveraged sd now env).1 = TraderState.holdingLeveraged sd) ∧
    (∀ (sd : SignalData) (now : ℚ) (env : SwapEnv),
      (swapToNonLeveraged sd now env).2 = [] ∨
      (swapToNonLeveraged sd now env).2 = sellOrdersToNL env ∨
      (swapToNonLeveraged sd now env).2 = sellOrdersToNL env ++ [buyOrderToNL env]) ∧
    (∀ (sd : SignalData) (now : ℚ) (env : SwapEnv),
      env.preBase.quantity > 1 / 10 → env.sellPlaceOk = false →
      swapToLeveraged sd now env = (TraderState.holdingNonLeveraged sd, [])) ∧
    (∀ (sd : SignalData) (now : ℚ) (env : SwapEnv),
      env.postSellBase.quantity * env.postSellBase.currentPrice ≥
        env.preBase.quantity * env.preBase.currentPrice - 5 →
      (swapToLeveraged sd now env).1 = TraderState.holdingNonLeveraged sd) ∧
    (∀ (sd : SignalData) (now : ℚ) (env : SwapEnv),
      env.cashAvailable < 10 →
      (swapToLeveraged sd now env).1 = TraderState.holdingNonLeveraged sd) ∧
    (∀ (sd : SignalData) (now : ℚ) (env : SwapEnv),
      env.buyPlaceOk = false →
      (swapToLeveraged sd now env).1 = TraderState.holdingNonLeveraged sd) ∧
    (∀ (sd : SignalData) (now : ℚ) (env : SwapEnv),
      env.postBuyLev.quantity * env.postBuyLev.currentPrice ≤
        env.preBuyLev.quantity * env.preBuyLev.currentPrice + 5 →
      (swapToLeveraged sd now env).1 = TraderState.holdingNonLeveraged sd) ∧
    (∀ (sd : SignalData) (now : ℚ) (env : SwapEnv),
      (swapToLeveraged sd now env).2 = [] ∨
      (swapToLeveraged sd now env).2 = sellOrdersToL env ∨
      (swapToLeveraged sd now env).2 = sellOrdersToL env ++ [buyOrderToL env]) :=
  ⟨snl_sellFail, snl_sell_unverified, snl_noCash, snl_buyFail, snl_buy_unverified,
   snl_orders_shape, stl_sellFail, stl_sell_unverified, stl_noCash, stl_buyFail,
   stl_buy_unverified, stl_orders_shape⟩

/-- Claim C4, witness: a raising sell leg in both directions keeps the holding
variant with the pre-swap signal data, and a cash balance of 0 after the sell
does too. -/
theorem c4_witness :
    swapToNonLeveraged sdRef 7 envSellFail =
      (TraderState.holdingLeveraged sdRef, []) ∧
    swapToLeveraged sdRef 7 envSellFail =
      (TraderState.holdingNonLeveraged sdRef, []) ∧
    (swapToNonLeveraged sdRef 7 envZero).1 = TraderState.holdingLeveraged sdRef ∧
    (swapToLeveraged sdRef 7 envZero).1 = TraderState.holdingNonLeveraged sdRef :=
  ⟨c4_swap_failure_branches.1 sdRef 7 envSellFail
      (by norm_num [envSellFail]) rfl,
   c4_swap_failure_branches.2.2.2.2.2.2.1 sdRef 7 envSellFail
      (by norm_num [envSellFail]) rfl,
   c4_swap_failure_branches.2.2.1 sdRef 7 envZero (by norm_num [envZero]),
   c4_swap_failure_branches.2.2.2.2.2.2.2.2.1 sdRef 7 envZero
      (by norm_num [envZero])⟩

theorem init_resume_nonlev (sd : SignalData) (now : ℚ) (env : InitEnv)
    (h1 : env.fetchedBase.quantity * env.fetchedBase.currentPrice >
      env.fetchedLev.quantity * env.fetchedLev.currentPrice)
    (h2 : env.fetchedBase.quantity * env.fetchedBase.currentPrice >
      env.cashAvailable) :
    initializingProcess sd now env =
      (TraderState.holdingNonLeveraged
        ⟨now, env.fetchedBase.currentPrice, env.fetchedLev.currentPrice,
          env.fetchedBase.currentPrice⟩, []) := by
  unfold initializingProcess
  rw [if_pos ⟨h1, h2⟩]

theorem init_resume_lev (sd : SignalData) (now : ℚ) (env : InitEnv)
    (h1 : env.fetchedLev.quantity * env.fetchedLev.currentPrice >
      env.fetchedBase.quantity * env.fetchedBase.currentPrice)
    (h2 : env.fetchedLev.quantity * env.fetchedLev.currentPrice >
      env.cashAvailable) :
    initializingProcess sd now env =
      (TraderState.holdingLeveraged
        ⟨now, env.fetchedBase.currentPrice, env.fetchedLev.currentPrice,
          env.fetchedLev.currentPrice⟩, []) := by
  unfold initializingProcess
  rw [if_neg (fun hc => lt_asymm h1 hc.1), if_pos ⟨h1, h2⟩]

theorem init_cash_branch (sd : SignalData) (now : ℚ) (env : InitEnv)
    (h1 : ¬(env.fetchedBase.quantity * env.fetchedBase.currentPrice >
        env.fetchedLev.quantity * env.fetchedLev.currentPrice ∧
      env.fetchedBase.quantity * env.fetchedBase.currentPrice > env.cashAvailable))
    (h2 : ¬(env.fetchedLev.quantity * env.fetchedLev.currentPrice >
        env.fetchedBase.quantity * env.fetchedBase.currentPrice ∧
      env.fetchedLev.quantity * env.fetchedLev.currentPrice > env.cashAvailable))
    (h3 : env.cashAvailable > 10) :
    initializingProcess sd now env =
      (if env.buyPlaceOk = false then (TraderState.initializing sd, [])
       else if env.postBuyLev.quantity * env.postBuyLev.currentPrice ≤
           env.fetchedLev.quantity * env.fetchedLev.currentPrice + 5 then
         (TraderState.initializing sd, [initBuyOrder env])
       else
         (TraderState.holdingLeveraged
           ⟨now, env.postBuyBase.currentPrice, env.postBuyLev.currentPrice,
             env.postBuyLev.currentPrice⟩, [initBuyOrder env])) := by
  unfold initializingProcess
  rw [if_neg h1, if_neg h2, if_pos h3]

theorem init_idle (sd : SignalData) (now : ℚ) (env : InitEnv)
    (h1 : ¬(env.fetchedBase.quantity * env.fetchedBase.currentPrice >
        env.fetchedLev.quantity * env.fetchedLev.currentPrice ∧
      env.fetchedBase.quantity * env.fetchedBase.currentPrice > env.cashAvailable))
    (h2 : ¬(env.fetchedLev.quantity * env.fetchedLev.currentPrice >
        env.fetchedBase.quantity * env.fetchedBase.currentPrice ∧
      env.fetchedLev.quantity * env.fetchedLev.currentPrice > env.cashAvailable))
    (h3 : ¬env.cashAvailable > 10) :
    initializingProcess sd now env = (TraderState.initializing sd, []) := by
  unfold initializingProcess
  rw [if_neg h1, if_neg h2, if_neg h3]

/-- Claim C5, counterexample: with both holdings worth 1000, cash 500 and a
filling buy, cash dominates nothing (500 is below both holding values) and
neither side dominates the other, so by the claim the engine should return
Initializing without orders; instead the code buys leveraged (the cash branch
fires on cash exceeding 10) and transitions to HoldingLeveraged with an order
placed. -/
theorem c5_counterexample :
    envC5.cashAvailable <
      envC5.fetchedBase.quantity * envC5.fetchedBase.currentPrice ∧
    envC5.cashAvailable <
      envC5.fetchedLev.quantity * envC5.fetchedLev.currentPrice ∧
    (initializingProcess sdZero 3 envC5).1 =
      TraderState.holdingLeveraged ⟨3, 1, 100, 100⟩ ∧
    (initializingProcess sdZero 3 envC5).2 ≠ ([] : List MarketOrderPayload) := by
  have he : initializingProcess sdZero 3 envC5 =
      (TraderState.holdingLeveraged ⟨3, 1, 100, 100⟩, [initBuyOrder envC5]) := by
    rw [init_cash_branch sdZero 3 envC5
      (by norm_num [envC5]) (by norm_num [envC5]) (by norm_num [envC5]),
      if_neg (by norm_num [envC5]), if_neg (by norm_num [envC5])]
    norm_num [envC5]
  refine ⟨by norm_num [envC5], by norm_num [envC5], ?_, ?_⟩
  · rw [he]
  · rw [he]
    simp

/-- Claim C5, amended: Initializing resumes into the holding whose market
value strictly exceeds both the other holding value and the available cash,
without placing any order; otherwise, when cash exceeds 10 (an absolute
threshold, not a dominance comparison), it buys the leveraged side with a
market order and moves to HoldingLeveraged only once the fill is verified (a
value rise of more than 5), staying in Initializing when the placement raises
or the fill is not verified; when no branch applies it returns Initializing
without orders. -/
theorem c5_init_decision :
    (∀ (sd : SignalData) (now : ℚ) (env : InitEnv),
      env.fetchedBase.quantity * env.fetchedBase.currentPrice >
        env.fetchedLev.quantity * env.fetchedLev.currentPrice →
      env.fetchedBase.quantity * env.fetchedBase.currentPrice >
        env.cashAvailable →
      initializingProcess sd now env =
        (TraderState.holdingNonLeveraged
          ⟨now, env.fetchedBase.currentPrice, env.fetchedLev.currentPrice,
            env.fetchedBase.currentPrice⟩, [])) ∧
    (∀ (sd : SignalData) (now : ℚ) (env : InitEnv),
      env.fetchedLev.quantity * env.fetchedLev.currentPrice >
        env.fetchedBase.quantity * env.fetchedBase.currentPrice →
      env.fetchedLev.quantity * env.fetchedLev.currentPrice >
        env.cashAvailable →
      initializingProcess sd now env =
        (TraderState.holdingLeveraged
          ⟨now, env.fetchedBase.currentPrice, env.fetchedLev.currentPrice,
            env.fetchedLev.currentPrice⟩, [])) ∧
    (∀ (sd : SignalData) (now : ℚ) (env : InitEnv),
      ¬(env.fetchedBase.quantity * env.fetchedBase.currentPrice >
          env.fetchedLev.quantity * env.fetchedLev.currentPrice ∧
        env.fetchedBase.quantity * env.fetchedBase.currentPrice >
          env.cashAvailable) →
      ¬(env.fetchedLev.quantity * env.fetchedLev.currentPrice >
          env.fetchedBase.quantity * env.fetchedBase.currentPrice ∧
        env.fetchedLev.quantity * env.fetchedLev.currentPrice >
          env.cashAvailable) →
      env.cashAvailable > 10 → env.buyPlaceOk = false →
      initializingProcess sd now env = (TraderState.initializing sd, [])) ∧
    (∀ (sd : SignalData) (now : ℚ) (env : InitEnv),
      ¬(env.fetchedBase.quantity * env.fetchedBase.currentPrice >
          env.fetchedLev.quantity * env.fetchedLev.currentPrice ∧
        env.fetchedBase.quantity * env.fetchedBase.currentPrice >
          env.cashAvailable) →
      ¬(env.fetchedLev.quantity * env.fetchedLev.currentPrice >
          env.fetchedBase.quantity * env.fetchedBase.currentPrice ∧
        env.fetchedLev.quantity * env.fetchedLev.currentPrice >
          env.cashAvailable) →
      env.cashAvailable > 10 → env.buyPlaceOk = true →
      env.postBuyLev.quantity * env.postBuyLev.currentPrice ≤
        env.fetchedLev.quantity * env.fetchedLev.currentPrice + 5 →
      initializingProcess sd now env =
        (TraderState.initializing sd, [initBuyOrder env])) ∧
    (∀ (sd : SignalData) (now : ℚ) (env : InitEnv),
      ¬(env.fetchedBase.quantity * env.fetchedBase.currentPrice >
          env.fetchedLev.quantity * env.fetchedLev.currentPrice ∧
        env.fetchedBase.quantity * env.fetchedBase.currentPrice >
          env.cashAvailable) →
      ¬(env.fetchedLev.quantity * env.fetchedLev.currentPrice >
          env.fetchedBase.quantity * env.fetchedBase.currentPrice ∧
        env.fetchedLev.quantity * env.fetchedLev.currentPrice >
          env.cashAvailable) →
      env.cashAvailable > 10 → env.buyPlaceOk = true →
      env.postBuyLev.quantity * env.postBuyLev.currentPrice >
        env.fetchedLev.quantity * env.fetchedLev.currentPrice + 5 →
      initializingProcess sd now env =
        (TraderState.holdingLeveraged
          ⟨now, env.postBuyBase.currentPrice, env.postBuyLev.currentPrice,
            env.postBuyLev.currentPrice⟩, [initBuyOrder env])) ∧
    (∀ (sd : SignalData) (now : ℚ) (env : InitEnv),
      ¬(env.fetchedBase.quantity * env.fetchedBase.currentPrice >
          env.fetchedLev.quantity * env.fetchedLev.currentPrice ∧
        env.fetchedBase.quantity * env.fetchedBase.currentPrice >
          env.cashAvailable) →
      ¬(env.fetchedLev.quantity * env.fetchedLev.currentPrice >
          env.fetchedBase.quantity * env.fetchedBase.currentPrice ∧
        env.fetchedLev.quantity * env.fetchedLev.currentPrice >
          env.cashAvailable) →
      ¬env.cashAvailable > 10 →
      initializingProcess sd now env = (TraderState.initializing sd, [])) := by
  refine ⟨init_resume_nonlev, init_resume_lev, ?_, ?_, ?_, init_idle⟩
  · intro sd now env h1 h2 h3 h4
    rw [init_cash_branch sd now env h1 h2 h3, if_pos h4]
  · intro sd now env h1 h2 h3 h4 h5
    rw [init_cash_branch sd now env h1 h2 h3,
      if_neg (by simp [h4]), if_pos h5]
  · intro sd now env h1 h2 h3 h4 h5
    rw [init_cash_branch sd now env h1 h2 h3,
      if_neg (by simp [h4]), if_neg (not_le.mpr h5)]

/-- Claim C5, witness: the amended claim at concrete environments: resuming
into each dominant side, the cash buy succeeding at the counterexample
environment, and an all-zero environment staying idle. -/
theorem c5_witness :
    initializingProcess sdZero 3 ⟨⟨10, 100⟩, ⟨1, 100⟩, 50, true, ⟨0, 0⟩, ⟨0, 0⟩⟩ =
      (TraderState.holdingNonLeveraged ⟨3, 100, 100, 100⟩, []) ∧
    initializingProcess sdZero 3 ⟨⟨1, 100⟩, ⟨10, 100⟩, 50, true, ⟨0, 0⟩, ⟨0, 0⟩⟩ =
      (TraderState.holdingLeveraged ⟨3, 100, 100, 100⟩, []) ∧
    initializingProcess sdZero 3 envC5 =
      (TraderState.holdingLeveraged ⟨3, 1, 100, 100⟩, [initBuyOrder envC5]) ∧
    initializingProcess sdZero 3 ⟨⟨0, 0⟩, ⟨0, 0⟩, 0, true, ⟨0, 0⟩, ⟨0, 0⟩⟩ =
      (TraderState.initializing sdZero, []) :=
  ⟨c5_init_decision.1 sdZero 3 _ (by norm_num) (by norm_num),
   c5_init_decision.2.1 sdZero 3 _ (by norm_num) (by norm_num),
   c5_init_decision.2.2.2.2.1 sdZero 3 envC5
     (by norm_num [envC5]) (by norm_num [envC5]) (by norm_num [envC5]) rfl
     (by norm_num [envC5]),
   c5_init_decision.2.2.2.2.2 sdZero 3 _ (by norm_num) (by norm_num)
     (by norm_num)⟩

theorem waitLoop_true (f : ℕ → Bool) (e : ℕ → ℚ) (mw : ℚ) :
    ∀ (fuel i : ℕ) (c : Bool) (j : ℕ),
      waitLoop f e mw fuel i = some (true, c, j) → c = false ∧ f j = true := by
  intro fuel
  induction fuel with
  | zero =>
    intro i c j h
    exact absurd h (by simp [waitLoop])
  | succ n ih =>
    intro i c j h
    unfold waitLoop at h
    by_cases hf : f i = true
    · rw [if_pos hf] at h
      simp only [Option.some.injEq, Prod.mk.injEq] at h
      exact ⟨h.2.1.symm, h.2.2 ▸ hf⟩
    · rw [if_neg hf] at h
      by_cases he : e i > mw
      · rw [if_pos he] at h
        simp only [Option.some.injEq, Prod.mk.injEq] at h
        exact absurd h.1 (by decide)
      · rw [if_neg he] at h
        exact ih (i + 1) c j h

theorem waitLoop_false (f : ℕ → Bool) (e : ℕ → ℚ) (mw : ℚ) :
    ∀ (fuel i : ℕ) (c : Bool) (j : ℕ),
      waitLoop f e mw fuel i = some (false, c, j) →
      c = true ∧ e j > mw ∧ ∀ k, i ≤ k → k ≤ j → f k = false := by
  intro fuel
  induction fuel with
  | zero =>
    intro i c j h
    exact absurd h (by simp [waitLoop])
  | succ n ih =>
    intro i c j h
    have hfi : ∀ m : ℕ, ¬f m = true → f m = false := by
      intro m hm
      cases hb : f m with
      | false => rfl
      | true => exact absurd hb hm
    unfold waitLoop at h
    by_cases hf : f i = true
    · rw [if_pos hf] at h
      simp only [Option.some.injEq, Prod.mk.injEq] at h
      exact absurd h.1 (by decide)
    · rw [if_neg hf] at h
      by_cases he : e i > mw
      · rw [if_pos he] at h
        simp only [Option.some.injEq, Prod.mk.injEq] at h
        refine ⟨h.2.1.symm, h.2.2 ▸ he, ?_⟩
        intro k hik hkj
        have hki : k = i := le_antisymm (h.2.2 ▸ hkj) hik
        exact hki ▸ hfi i hf
      · rw [if_neg he] at h
        obtain ⟨hc, hej, hk⟩ := ih (i + 1) c j h
        refine ⟨hc, hej, ?_⟩
        intro k hik hkj
        by_cases hki : k = i
        · exact hki ▸ hfi i hf
        · exact hk k (by omega) hkj

theorem waitLoop_terminates (f : ℕ → Bool) (e : ℕ → ℚ) (mw : ℚ)
    (hall : ∀ j, f j = false) :
    ∀ (fuel i : ℕ), (∃ k, i ≤ k ∧ k < i + fuel ∧ e k > mw) →
    ∃ j, waitLoop f e mw fuel i = some (false, true, j) := by
  intro fuel
  induction fuel with
  | zero =>
    rintro i ⟨k, hik, hklt, _⟩
    omega
  | succ n ih =>
    rintro i ⟨k, hik, hklt, hke⟩
    unfold waitLoop
    rw [if_neg (by simp [hall i])]
    by_cases he : e i > mw
    · rw [if_pos he]
      exact ⟨i, rfl⟩
    · rw [if_neg he]
      apply ih (i + 1)
      have hne : k ≠ i := fun hkeq => he (hkeq ▸ hke)
      exact ⟨k, by omega, by omega, hke⟩

/-- Claim C6: the blocking fill-wait returns true only when some poll of the
order-lookup endpoint answered status 404 (order not found, inferred filled)
and no cancel was issued; whenever it returns false, the elapsed wall-clock
time after the last poll exceeded maxWait, a cancel was issued, and no poll up
to that point answered 404; and when no poll ever answers 404 and the elapsed
time eventually exceeds maxWait within the run, it returns false with a
cancel.  has_order_been_filled answers true exactly on status 404. -/
theorem c6_fill_wait :
    (∀ (st : ℕ → ℕ) (e : ℕ → ℚ) (mw : ℚ) (fuel : ℕ) (c : Bool) (j : ℕ),
      waitForOrderOrCancel st e mw fuel = some (true, c, j) →
      c = false ∧ st j = 404) ∧
    (∀ (st : ℕ → ℕ) (e : ℕ → ℚ) (mw : ℚ) (fuel : ℕ) (c : Bool) (j : ℕ),
      waitForOrderOrCancel st e mw fuel = some (false, c, j) →
      c = true ∧ e j > mw ∧ ∀ k, k ≤ j → st k ≠ 404) ∧
    (∀ (st : ℕ → ℕ) (e : ℕ → ℚ) (mw : ℚ) (fuel : ℕ),
      (∀ j, st j ≠ 404) →
      (∃ N, 1 ≤ N ∧ N < 1 + fuel ∧ e N > mw) →
      ∃ j, waitForOrderOrCancel st e mw fuel = some (false, true, j)) ∧
    (∀ s : ℕ, hasOrderBeenFilled s = true ↔ s = 404) := by
  have hbeq : ∀ s : ℕ, hasOrderBeenFilled s = true ↔ s = 404 := by
    intro s
    simp [hasOrderBeenFilled]
  refine ⟨?_, ?_, ?_, hbeq⟩
  · intro st e mw fuel c j h
    unfold waitForOrderOrCancel at h
    by_cases h0 : hasOrderBeenFilled (st 0) = true
    · rw [if_pos h0] at h
      simp only [Option.some.injEq, Prod.mk.injEq] at h
      exact ⟨h.2.1.symm, h.2.2 ▸ (hbeq (st 0)).mp h0⟩
    · rw [if_neg h0] at h
      obtain ⟨hc, hfj⟩ := waitLoop_true _ e mw fuel 1 c j h
      exact ⟨hc, (hbeq (st j)).mp hfj⟩
  · intro st e mw fuel c j h
    unfold waitForOrderOrCancel at h
    by_cases h0 : hasOrderBeenFilled (st 0) = true
    · rw [if_pos h0] at h
      simp only [Option.some.injEq, Prod.mk.injEq] at h
      exact absurd h.1 (by decide)
    · rw [if_neg h0] at h
      obtain ⟨hc, hej, hk⟩ := waitLoop_false _ e mw fuel 1 c j h
      refine ⟨hc, hej, ?_⟩
      intro k hkj h404
      by_cases hk0 : k = 0
      · exact h0 (hk0 ▸ (hbeq (st k)).mpr h404)
      · have := hk k (by omega) hkj
        rw [(hbeq (st k)).mpr h404] at this
        exact absurd this (by decide)
  · intro st e mw fuel hall ⟨N, hN1, hNf, hNe⟩
    have hfall : ∀ j, hasOrderBeenFilled (st j) = false := by
      intro j
      cases hb : hasOrderBeenFilled (st j) with
      | false => rfl
      | true => exact absurd ((hbeq (st j)).mp hb) (hall j)
    unfold waitForOrderOrCancel
    rw [if_neg (by simp [hfall 0])]
    exact waitLoop_terminates _ e mw hfall fuel 1 ⟨N, hN1, by omega, hNe⟩

/-- Claim C6, witness: with every lookup answering 200, poll cycles of 1.1
seconds and maxWait 180, the wait cancels and returns false within 200 polls. -/
theorem c6_witness :
    ∃ j, waitForOrderOrCancel statuses200 elapsed11 180 200 =
      some (false, true, j) :=
  c6_fill_wait.2.2.1 statuses200 elapsed11 180 200
    (fun j => by norm_num [statuses200])
    ⟨170, by norm_num, by norm_num, by norm_num [elapsed11]⟩

theorem exceptMap_ok {α β : Type} (f : α → Except PyErr β) (Q : β → Prop) :
    ∀ l : List α, (∀ a ∈ l, ∃ b, f a = Except.ok b ∧ Q b) →
    ∃ bs, exceptMap f l = Except.ok bs ∧ bs.length = l.length ∧ ∀ b ∈ bs, Q b := by
  intro l
  induction l with
  | nil =>
    intro _
    exact ⟨[], rfl, rfl, by simp⟩
  | cons a as ih =>
    intro h
    obtain ⟨b, hfa, hQ⟩ := h a (List.mem_cons_self a as)
    obtain ⟨bs, hmap, hlen, hQs⟩ := ih (fun x hx => h x (List.mem_cons_of_mem a hx))
    refine ⟨b :: bs, ?_, by simp [hlen], ?_⟩
    · unfold exceptMap
      rw [hfa, hmap]
    · intro x hx
      rcases List.mem_cons.mp hx with h1 | h2
      · exact h1 ▸ hQ
      · exact hQs x h2

theorem exceptMap_error_head {α β : Type} (f : α → Except PyErr β) (a : α)
    (l : List α) (e : PyErr) (h : f a = Except.error e) :
    exceptMap f (a :: l) = Except.error e := by
  unfold exceptMap
  rw [h]

theorem pyAll_none (opens : List (Option Bool)) (h : ∀ o ∈ opens, o = none)
    (hne : opens ≠ []) : pyAll opens = false := by
  cases opens with
  | nil => exact absurd rfl hne
  | cons o rest => simp [pyAll, h o (List.mem_cons_self o rest)]

/-- Claim C7, counterexample: a position whose instrument and working schedule
resolve but whose schedule has one event dated after now: the filtered event
list is empty, indexing it with [-1] raises IndexError, and
are_positions_tradeable propagates the exception instead of returning false. -/
theorem c7_counterexample :
    arePositionsTradeable exchC7 instC7 posC7 5 = Except.error PyErr.indexError := by
  rfl

/-- Claim C7, amended: when every position resolves to a schedule whose
timeEvents is None or empty, the tradability check returns false without
raising; but a position with no instrument entry raises KeyError, a resolvable
instrument with no schedule for its id raises KeyError, and a schedule whose
events all lie at or after now raises IndexError. -/
theorem c7_missing_schedule :
    (∀ (exchanges : List Exchange) (instruments : List (ℕ × TradableInstrument))
        (positions : List SchedPosition) (now : ℚ),
      positions ≠ [] →
      (∀ p ∈ positions, ∃ ins, lookupInstrument instruments p.ticker = some ins ∧
        ∃ w, getWorkingSchedules exchanges ins.workingScheduleId = some w ∧
          (w.timeEvents = none ∨ w.timeEvents = some [])) →
      arePositionsTradeable exchanges instruments positions now =
        Except.ok false) ∧
    (∀ (exchanges : List Exchange) (instruments : List (ℕ × TradableInstrument))
        (p : SchedPosition) (rest : List SchedPosition) (now : ℚ),
      lookupInstrument instruments p.ticker = none →
      arePositionsTradeable exchanges instruments (p :: rest) now =
        Except.error PyErr.keyError) ∧
    (∀ (exchanges : List Exchange) (instruments : List (ℕ × TradableInstrument))
        (p : SchedPosition) (now : ℚ) (ins : TradableInstrument),
      lookupInstrument instruments p.ticker = some ins →
      getWorkingSchedules exchanges ins.workingScheduleId = none →
      arePositionsTradeable exchanges instruments [p] now =
        Except.error PyErr.keyError) ∧
    (∀ (exchanges : List Exchange) (instruments : List (ℕ × TradableInstrument))
        (p : SchedPosition) (now : ℚ) (ins : TradableInstrument)
        (w : WorkingSchedule) (evs : List TimeEvent),
      lookupInstrument instruments p.ticker = some ins →
      getWorkingSchedules exchanges ins.workingScheduleId = some w →
      w.timeEvents = some evs → evs ≠ [] →
      (∀ ev ∈ evs, ¬ev.date < now) →
      arePositionsTradeable exchanges instruments [p] now =
        Except.error PyErr.indexError) := by
  refine ⟨?_, ?_, ?_, ?_⟩
  · intro exchanges instruments positions now hne hok
    obtain ⟨ids, h1, hlen1, hQ1⟩ :=
      exceptMap_ok
        (fun p =>
          match lookupInstrument instruments p.ticker with
          | some ins => Except.ok ins.workingScheduleId
          | none => Except.error PyErr.keyError)
        (fun i => ∃ w, getWorkingSchedules exchanges i = some w ∧
          (w.timeEvents = none ∨ w.timeEvents = some []))
        positions
        (fun p hp => by
          obtain ⟨ins, hins, w, hw, hempty⟩ := hok p hp
          exact ⟨ins.workingScheduleId, by simp only [hins], w, hw, hempty⟩)
    obtain ⟨ws, h2, hlen2, hQ2⟩ :=
      exceptMap_ok
        (fun i =>
          match getWorkingSchedules exchanges i with
          | some w => Except.ok w
          | none => Except.error PyErr.keyError)
        (fun w => w.timeEvents = none ∨ w.timeEvents = some [])
        ids
        (fun i hi => by
          obtain ⟨w, hw, hempty⟩ := hQ1 i hi
          exact ⟨w, by simp only [hw], hempty⟩)
    obtain ⟨opens, h3, hlen3, hQ3⟩ :=
      exceptMap_ok (fun w => isExchangeOpen w.timeEvents now)
        (fun o => o = none) ws
        (fun w hw => by
          rcases hQ2 w hw with hnone | hnil
          · exact ⟨none, by simp only [hnone, isExchangeOpen], rfl⟩
          · exact ⟨none, by simp only [hnil, isExchangeOpen], rfl⟩)
    have hlo : opens.length = positions.length := by
      rw [hlen3, hlen2, hlen1]
    have hone : opens ≠ [] := by
      intro hn
      rw [hn] at hlo
      exact hne (List.length_eq_zero.mp hlo.symm)
    unfold arePositionsTradeable
    simp only [h1, h2, h3]
    rw [pyAll_none opens hQ3 hone]
  · intro exchanges instruments p rest now hmiss
    unfold arePositionsTradeable
    rw [exceptMap_error_head
      (fun p =>
        match lookupInstrument instruments p.ticker with
        | some ins => Except.ok ins.workingScheduleId
        | none => Except.error PyErr.keyError)
      p rest PyErr.keyError (by simp only [hmiss])]
  · intro exchanges instruments p now ins hins hws
    unfold arePositionsTradeable
    have h1 :
        exceptMap
          (fun p =>
            match lookupInstrument instruments p.ticker with
            | some ins => Except.ok ins.workingScheduleId
            | none => Except.error PyErr.keyError) [p] =
          Except.ok [ins.workingScheduleId] := by
      simp [exceptMap, hins]
    simp only [h1]
    rw [exceptMap_error_head
      (fun i =>
        match getWorkingSchedules exchanges i with
        | some w => Except.ok w
        | none => Except.error PyErr.keyError)
      ins.workingScheduleId [] PyErr.keyError (by simp only [hws])]
  · intro exchanges instruments p now ins w evs hins hws hte hevne hnolt
    unfold arePositionsTradeable
    have h1 :
        exceptMap
          (fun p =>
            match lookupInstrument instruments p.ticker with
            | some ins => Except.ok ins.workingScheduleId
            | none => Except.error PyErr.keyError) [p] =
          Except.ok [ins.workingScheduleId] := by
      simp [exceptMap, hins]
    have h2 :
        exceptMap
          (fun i =>
            match getWorkingSchedules exchanges i with
            | some w => Except.ok w
            | none => Except.error PyErr.keyError) [ins.workingScheduleId] =
          Except.ok [w] := by
      simp [exceptMap, hws]
    have h3 : isExchangeOpen w.timeEvents now = Except.error PyErr.indexError := by
      cases evs with
      | nil => exact absurd rfl hevne
      | cons ev rest =>
        have hfil : List.filter (fun t => decide (t.date < now)) (ev :: rest) = [] :=
          List.filter_eq_nil_iff.mpr (fun a ha => by simpa using hnolt a ha)
        rw [hte]
        simp [isExchangeOpen, hfil]
    simp only [h1, h2]
    rw [exceptMap_error_head (fun w => isExchangeOpen w.timeEvents now)
      w [] PyErr.indexError h3]

/-- Claim C7, witness: the amended claim at concrete inputs: an empty event
list yields ok false, a missing instrument entry yields KeyError, a missing
schedule id yields KeyError, and a schedule whose only event is after now
yields IndexError. -/
theorem c7_witness :
    arePositionsTradeable [⟨[⟨1, some []⟩]⟩] [(7, ⟨1⟩)] [⟨7⟩] 5 =
      Except.ok false ∧
    arePositionsTradeable [⟨[⟨1, some []⟩]⟩] [] [⟨7⟩] 5 =
      Except.error PyErr.keyError ∧
    arePositionsTradeable [] [(7, ⟨1⟩)] [⟨7⟩] 5 =
      Except.error PyErr.keyError ∧
    arePositionsTradeable [⟨[⟨1, some [⟨10, Type3.OPEN⟩]⟩]⟩] [(7, ⟨1⟩)] [⟨7⟩] 5 =
      Except.error PyErr.indexError :=
  ⟨c7_missing_schedule.1 [⟨[⟨1, some []⟩]⟩] [(7, ⟨1⟩)] [⟨7⟩] 5
      (by simp)
      (fun p hp => ⟨⟨1⟩, by
        simp only [List.mem_singleton] at hp
        subst hp
        rfl, ⟨1, some []⟩, rfl, Or.inr rfl⟩),
   c7_missing_schedule.2.1 [⟨[⟨1, some []⟩]⟩] [] ⟨7⟩ [] 5 rfl,
   c7_missing_schedule.2.2.1 [] [(7, ⟨1⟩)] ⟨7⟩ 5 ⟨1⟩ rfl rfl,
   c7_missing_schedule.2.2.2 [⟨[⟨1, some [⟨10, Type3.OPEN⟩]⟩]⟩] [(7, ⟨1⟩)] ⟨7⟩ 5
      ⟨1⟩ ⟨1, some [⟨10, Type3.OPEN⟩]⟩ [⟨10, Type3.OPEN⟩] rfl rfl rfl
      (by simp)
      (fun ev hev => by
        simp only [List.mem_singleton] at hev
        subst hev
        norm_num)⟩

/-- Claim C8, counterexample: write_state persists only three of the four
SignalData fields, so two states differing only in position_entry_price write
identical snapshots, and no read-back function can reproduce all four fields
exactly. -/
theorem c8_counterexample :
    writeState StateName.holdingNonLeveragedN sdC8a =
      writeState StateName.holdingNonLeveragedN sdC8b ∧
    sdC8a ≠ sdC8b ∧
    ¬∃ reader : StateRow → StateName × SignalData,
      ∀ (n : StateName) (sd : SignalData), reader (writeState n sd) = (n, sd) := by
  refine ⟨rfl, ?_, ?_⟩
  · intro h
    have : sdC8a.positionEntryPrice = sdC8b.positionEntryPrice := by rw [h]
    norm_num [sdC8a, sdC8b] at this
  · rintro ⟨reader, hreader⟩
    have h1 := hreader StateName.holdingNonLeveragedN sdC8a
    have h2 := hreader StateName.holdingNonLeveragedN sdC8b
    rw [show writeState StateName.holdingNonLeveragedN sdC8a =
        writeState StateName.holdingNonLeveragedN sdC8b from rfl] at h1
    have hsd : sdC8a = sdC8b := by
      have := h1.symm.trans h2
      exact (Prod.mk.injEq _ _ _ _ ▸ this).2
    have : sdC8a.positionEntryPrice = sdC8b.positionEntryPrice := by rw [hsd]
    norm_num [sdC8a, sdC8b] at this

/-- Claim C8, amended: a persisted state snapshot, once read back, reproduces
the state name and the three persisted SignalData fields
(time_last_base_change, base_value_at_last_change, lev_value_at_last_change)
exactly; position_entry_price is not written by write_state and is not
recoverable. -/
theorem c8_state_roundtrip :
    ∀ (n : StateName) (sd : SignalData),
      readStateRow (writeState n sd) =
        (n, sd.timeLastBaseChange, sd.baseValueAtLastChange,
          sd.levValueAtLastChange) :=
  fun _ _ => rfl

/-- Claim C9: at a tick whose divergence and dwell fire the swap in
HoldingLeveraged, the swap-trigger notification runs outside any exception
handler; when the Telegram endpoint answers 500 the assert in send_message
raises AssertionError and the step aborts with the error instead of returning
the next state, while the same tick with a 200 answer completes into the
swap. -/
theorem c9_notify_failure_aborts_step :
    holdingLeveragedProcessNotify sdRef bp100 lp5021 130 envZero 500 =
      Except.error PyErr.assertionError ∧
    holdingLeveragedProcessNotify sdRef bp100 lp5021 130 envZero 200 =
      Except.ok (swapToNonLeveraged sdRef 130 envZero) := by
  have hb : ¬bp100.currentPrice ≠ sdRef.baseValueAtLastChange := by
    norm_num [bp100, sdRef]
  have hcond : levDivergence sdRef lp5021.currentPrice > LEV_DIFF_INVEST ∧
      (130 : ℚ) - sdRef.timeLastBaseChange > TIME_DIFF_INVEST := by
    constructor
    · norm_num [levDivergence, sdRef, lp5021, LEV_DIFF_INVEST]
    · norm_num [sdRef, TIME_DIFF_INVEST]
  constructor
  · unfold holdingLeveragedProcessNotify
    rw [if_neg hb, if_pos hcond]
    rfl
  · unfold holdingLeveragedProcessNotify
    rw [if_neg hb, if_pos hcond]
    rfl

theorem roundHalfEven_le (x : ℚ) : ((roundHalfEven x : ℤ) : ℚ) ≤ x + 1 / 2 := by
  unfold roundHalfEven
  split_ifs with h1 h2 h3
  · have := Int.floor_le x
    linarith
  · push_cast
    linarith
  · have := Int.floor_le x
    linarith
  · push_cast
    have hfr : x - (⌊x⌋ : ℚ) = 1 / 2 := le_antisymm (not_lt.mp h2) (not_lt.mp h1)
    linarith

theorem round2_le (x : ℚ) : round2 x ≤ x + 1 / 200 := by
  have h := roundHalfEven_le (x * 100)
  unfold round2
  linarith

theorem snl_buy_order_last (sd : SignalData) (now : ℚ) (env : SwapEnv)
    (h0 : env.sellPlaceOk = true)
    (h1 : ¬env.postSellLev.quantity * env.postSellLev.currentPrice ≥
      env.preLev.quantity * env.preLev.currentPrice - 5)
    (h2 : ¬env.cashAvailable < 10)
    (h3 : env.buyPlaceOk = true) :
    (swapToNonLeveraged sd now env).2.getLast? = some (buyOrderToNL env) := by
  unfold swapToNonLeveraged
  rw [if_neg (fun hc => by rw [h0] at hc; exact absurd hc.2 (by simp)),
    if_neg h1, if_neg h2, if_neg (by simp [h3])]
  split_ifs <;> exact List.getLast?_concat _

theorem stl_buy_order_last (sd : SignalData) (now : ℚ) (env : SwapEnv)
    (h0 : env.sellPlaceOk = true)
    (h1 : ¬env.postSellBase.quantity * env.postSellBase.currentPrice ≥
      env.preBase.quantity * env.preBase.currentPrice - 5)
    (h2 : ¬env.cashAvailable < 10)
    (h3 : env.buyPlaceOk = true) :
    (swapToLeveraged sd now env).2.getLast? = some (buyOrderToL env) := by
  unfold swapToLeveraged
  rw [if_neg (fun hc => by rw [h0] at hc; exact absurd hc.2 (by simp)),
    if_neg h1, if_neg h2, if_neg (by simp [h3])]
  split_ifs <;> exact List.getLast?_concat _

theorem init_buy_order (sd : SignalData) (now : ℚ) (env : InitEnv)
    (h1 : ¬(env.fetchedBase.quantity * env.fetchedBase.currentPrice >
        env.fetchedLev.quantity * env.fetchedLev.currentPrice ∧
      env.fetchedBase.quantity * env.fetchedBase.currentPrice > env.cashAvailable))
    (h2 : ¬(env.fetchedLev.quantity * env.fetchedLev.currentPrice >
        env.fetchedBase.quantity * env.fetchedBase.currentPrice ∧
      env.fetchedLev.quantity * env.fetchedLev.currentPrice > env.cashAvailable))
    (h3 : env.cashAvailable > 10) (h4 : env.buyPlaceOk = true) :
    (initializingProcess sd now env).2 = [initBuyOrder env] := by
  rw [init_cash_branch sd now env h1 h2 h3, if_neg (by simp [h4])]
  split_ifs <;> rfl

theorem hlp_orders_empty_or_swap (sd : SignalData) (bp lp : Position)
    (now : ℚ) (env : SwapEnv) :
    (holdingLeveragedProcess sd bp lp now env).2 = [] ∨
    holdingLeveragedProcess sd bp lp now env = swapToNonLeveraged sd now env := by
  unfold holdingLeveragedProcess
  split_ifs <;> first | exact Or.inl rfl | exact Or.inr rfl

theorem hnp_orders_empty_or_swap (sd : SignalData) (bp lp : Position)
    (now : ℚ) (env : SwapEnv) :
    (holdingNonLeveragedProcess sd bp lp now env).2 = [] ∨
    holdingNonLeveragedProcess sd bp lp now env = swapToLeveraged sd now env := by
  unfold holdingNonLeveragedProcess
  split_ifs <;> first | exact Or.inl rfl | exact Or.inr rfl

/-- Claim C10, counterexample: with 10 cash freed by the sell leg and the base
trading at 1000, the full-cash quantity is 0.01 shares and the buy order is
sized round(0.9 times 0.01, 2) = 0.01: the posted order commits the full
available cash, not strictly less. -/
theorem c10_counterexample :
    (swapToNonLeveraged sdRef 7 envC10).2.getLast? =
      some ⟨Ticker.base, envC10.cashAvailable / envC10.preBuyBase.currentPrice⟩ ∧
    (0 : ℚ) < envC10.preBuyBase.currentPrice := by
  constructor
  · rw [snl_buy_order_last sdRef 7 envC10 rfl (by norm_num [envC10])
      (by norm_num [envC10]) rfl]
    have : buyOrderToNL envC10 =
        ⟨Ticker.base, envC10.cashAvailable / envC10.preBuyBase.currentPrice⟩ := by
      unfold buyOrderToNL marketOrderPayload
      rw [if_pos rfl]
      have harg : envC10.cashAvailable / envC10.preBuyBase.currentPrice * (9 / 10) =
          (9 / 1000 : ℚ) := by
        norm_num [envC10]
      rw [harg]
      have hfl : ⌊(9 / 1000 : ℚ) * 100⌋ = 0 := by norm_num
      have hr : roundHalfEven ((9 / 1000 : ℚ) * 100) = 1 := by
        unfold roundHalfEven
        rw [hfl]
        norm_num
      unfold round2
      rw [hr]
      norm_num [envC10]
    rw [this]
  · norm_num [envC10]

/-- Claim C10, amended: every buy leg (the initialization buy and the buy leg
of both swap directions) posts a market order of
round(0.9 times (availableCash / currentPrice), 2) shares; for every cash and
positive price whose full-cash quantity exceeds 0.05 shares the posted
quantity is strictly below the full-cash quantity (two-decimal rounding can
reach the full amount for smaller quantities); and the holding states place no
orders outside a swap. -/
theorem c10_buy_sizing :
    (∀ (sd : SignalData) (now : ℚ) (env : SwapEnv),
      env.sellPlaceOk = true →
      ¬env.postSellLev.quantity * env.postSellLev.currentPrice ≥
        env.preLev.quantity * env.preLev.currentPrice - 5 →
      ¬env.cashAvailable < 10 → env.buyPlaceOk = true →
      (swapToNonLeveraged sd now env).2.getLast? =
        some (marketOrderPayload Ticker.base
          (env.cashAvailable / env.preBuyBase.currentPrice * (9 / 10))
          OrderSide.buy)) ∧
    (∀ (sd : SignalData) (now : ℚ) (env : SwapEnv),
      env.sellPlaceOk = true →
      ¬env.postSellBase.quantity * env.postSellBase.currentPrice ≥
        env.preBase.quantity * env.preBase.currentPrice - 5 →
      ¬env.cashAvailable < 10 → env.buyPlaceOk = true →
      (swapToLeveraged sd now env).2.getLast? =
        some (marketOrderPayload Ticker.lev
          (env.cashAvailable / env.preBuyLev.currentPrice * (9 / 10))
          OrderSide.buy)) ∧
    (∀ (sd : SignalData) (now : ℚ) (env : InitEnv),
      ¬(env.fetchedBase.quantity * env.fetchedBase.currentPrice >
          env.fetchedLev.quantity * env.fetchedLev.currentPrice ∧
        env.fetchedBase.quantity * env.fetchedBase.currentPrice >
          env.cashAvailable) →
      ¬(env.fetchedLev.quantity * env.fetchedLev.currentPrice >
          env.fetchedBase.quantity * env.fetchedBase.currentPrice ∧
        env.fetchedLev.quantity * env.fetchedLev.currentPrice >
          env.cashAvailable) →
      env.cashAvailable > 10 → env.buyPlaceOk = true →
      (initializingProcess sd now env).2 =
        [marketOrderPayload Ticker.lev
          (env.cashAvailable / env.fetchedLev.currentPrice * (9 / 10))
          OrderSide.buy]) ∧
    (∀ cash price : ℚ, 0 < price → 1 / 20 < cash / price →
      round2 (cash / price * (9 / 10)) < cash / price) ∧
    (∀ (sd : SignalData) (bp lp : Position) (now : ℚ) (env : SwapEnv),
      (holdingLeveragedProcess sd bp lp now env).2 = [] ∨
      holdingLeveragedProcess sd bp lp now env = swapToNonLeveraged sd now env) ∧
    (∀ (sd : SignalData) (bp lp : Position) (now : ℚ) (env : SwapEnv),
      (holdingNonLeveragedProcess sd bp lp now env).2 = [] ∨
      holdingNonLeveragedProcess sd bp lp now env = swapToLeveraged sd now env) := by
  refine ⟨snl_buy_order_last, stl_buy_order_last, init_buy_order, ?_,
    hlp_orders_empty_or_swap, hnp_orders_empty_or_swap⟩
  intro cash price hp hq
  have h := round2_le (cash / price * (9 / 10))
  linarith

/-- Claim C10, witness: the sizing applied at the counterexample environment,
and the strict bound at cash 100 and price 10 where the full-cash quantity is
10 shares. -/
theorem c10_witness :
    (swapToNonLeveraged sdRef 7 envC10).2.getLast? =
      some (marketOrderPayload Ticker.base
        (envC10.cashAvailable / envC10.preBuyBase.currentPrice * (9 / 10))
        OrderSide.buy) ∧
    round2 ((100 : ℚ) / 10 * (9 / 10)) < (100 : ℚ) / 10 :=
  ⟨c10_buy_sizing.1 sdRef 7 envC10 rfl (by norm_num [envC10])
      (by norm_num [envC10]) rfl,
   c10_buy_sizing.2.2.2.1 100 10 (by norm_num) (by norm_num)⟩

end SP500
